import Mathlib

/-!
Verification development for the river-mesh component of the zooshi
repository (source file src/src/components/river.cpp).

The embedding models the mesh-generation routine RiverComponent::CreateRiverMesh
and the serialization pair RiverComponent::AddFromRawData /
RiverComponent::ExportRawData as pure Lean functions.

Modelling conventions:
 - float arithmetic is modelled by exact rational arithmetic (ℚ);
 - the square root inside mathfu Normalized is modelled by ratSqrt, an
   executable rational square root that agrees with the real square root on
   perfect squares (every concrete input used below has axis-aligned track
   deltas, whose squared lengths are perfect squares, so the model is exact
   there); no general theorem below depends on the value of ratSqrt;
 - the global random source (srand / mathfu Random) is modelled by a
   deterministic stream of draws in the unit interval: a function from the
   draw counter to ℚ; reseeding with the instance seed is modelled by
   selecting the stream from the seed and discarding the previous global
   stream;
 - std vectors of vertices are Lean lists; the out-of-range vector writes
   that the hardcoded loop-closure index arithmetic can produce (undefined
   behaviour in C++) are modelled as no-ops via List.set, and every concrete
   input evaluated below is chosen so that all writes are in range;
 - the unsigned short index buffer stores values reduced modulo 65536, the
   conversion C++ applies on push_back;
 - Mesh::ComputeNormalsTangents (external library code) only rewrites the
   normal and tangent fields after generation; no claim below concerns those
   fields, so it is omitted.
-/

namespace River

/-- Rational 2-vector standing for mathfu vec2 (used for texture coordinates
and for the per-contour side and up offsets). -/
structure Vec2 where
  x : ℚ
  y : ℚ
deriving DecidableEq

/-- Rational 3-vector standing for mathfu vec3. -/
structure Vec3 where
  x : ℚ
  y : ℚ
  z : ℚ
deriving DecidableEq

/-- Rational 4-vector standing for mathfu vec4 (tangent field only). -/
structure Vec4 where
  x : ℚ
  y : ℚ
  z : ℚ
  w : ℚ
deriving DecidableEq

instance : Add Vec3 := ⟨fun a b => ⟨a.x + b.x, a.y + b.y, a.z + b.z⟩⟩

instance : Sub Vec3 := ⟨fun a b => ⟨a.x - b.x, a.y - b.y, a.z - b.z⟩⟩

instance : SMul ℚ Vec3 := ⟨fun c v => ⟨c * v.x, c * v.y, c * v.z⟩⟩

@[simp] theorem Vec3.add_def (a b : Vec3) :
    a + b = ⟨a.x + b.x, a.y + b.y, a.z + b.z⟩ := rfl

@[simp] theorem Vec3.sub_def (a b : Vec3) :
    a - b = ⟨a.x - b.x, a.y - b.y, a.z - b.z⟩ := rfl

@[simp] theorem Vec3.smul_def (c : ℚ) (v : Vec3) :
    c • v = ⟨c * v.x, c * v.y, c * v.z⟩ := rfl

/-- mathfu vec3 DotProduct. -/
def Vec3.dot (a b : Vec3) : ℚ := a.x * b.x + a.y * b.y + a.z * b.z

/-- mathfu vec3 CrossProduct. -/
def Vec3.cross (a b : Vec3) : Vec3 :=
  ⟨a.y * b.z - a.z * b.y, a.z * b.x - a.x * b.z, a.x * b.y - a.y * b.x⟩

/-- The up axis, mathfu kAxisZ3f. -/
def kAxisZ3f : Vec3 := ⟨0, 0, 1⟩

/-- Executable floor square root on ℕ (kernel-reducible scan). -/
def natSqrt (n : ℕ) : ℕ :=
  (List.range (n + 1)).foldl (fun acc k => if k * k ≤ n then k else acc) 0

/-- Rational square root: exact on rationals whose numerator and denominator
are perfect squares; stands for the float square root used by mathfu. -/
def ratSqrt (q : ℚ) : ℚ := (natSqrt q.num.toNat : ℚ) / (natSqrt q.den : ℚ)

/-- mathfu Normalized: the vector divided by its Euclidean length. -/
def Vec3.normalized (v : Vec3) : Vec3 :=
  let len := ratSqrt (v.dot v)
  ⟨v.x / len, v.y / len, v.z / len⟩

/-- mathfu Lerp between range_start and range_end at the given percentage. -/
def Lerp (range_start range_end percent : ℚ) : ℚ :=
  (1 - percent) * range_start + percent * range_end

/-- One bank contour of the river configuration: lateral range x_min..x_max
and vertical range z_min..z_max (RiverBankContour in the config schema). -/
structure RiverBankContour where
  x_min : ℚ
  x_max : ℚ
  z_min : ℚ
  z_max : ℚ
deriving DecidableEq

/-- The river configuration fields CreateRiverMesh reads (RiverConfig in the
config schema; spline step size and material and shader names are consumed by
external collaborators and carry no geometry). -/
structure RiverConfig where
  banks : List RiverBankContour
  river_index : ℕ
  track_height : ℚ
  texture_tile_size : ℚ
deriving DecidableEq

/-- The fplbase NormalMappedVertex layout: position, texture coordinate,
normal, tangent. -/
structure NormalMappedVertex where
  pos : Vec3
  tc : Vec2
  norm : Vec3
  tangent : Vec4
deriving DecidableEq

/-- Default vertex for out-of-range list reads (never relevant on the
in-range indices the code uses). -/
def defaultVertex : NormalMappedVertex := ⟨⟨0, 0, 0⟩, ⟨0, 0⟩, ⟨0, 0, 0⟩, ⟨0, 0, 0, 0⟩⟩

/-- The (side, up) offsets of the bank contours for path sample i: for each
contour j two uniform draws are lerped into the contour's x and z ranges
(river.cpp lines 151-156). The draw counter orders the draws exactly as the
nested loops do: two per contour, x first. -/
def rowOffsets (cfg : RiverConfig) (rand : ℕ → ℚ) (i : ℕ) : List Vec2 :=
  let n := cfg.banks.length
  (List.range n).map fun j =>
    let b := cfg.banks.getD j ⟨0, 0, 0, 0⟩
    ⟨Lerp b.x_min b.x_max (rand (2 * (i * n + j))),
     Lerp b.z_min b.z_max (rand (2 * (i * n + j) + 1))⟩

/-- Texture V coordinate of row i: tile count times i over segment count
(river.cpp lines 144-145). -/
def textureV (cfg : RiverConfig) (S i : ℕ) : ℚ :=
  cfg.texture_tile_size * (i : ℚ) / (S : ℚ)

/-- First contour of the bank containing contour j (river.cpp line 169). -/
def bankStart (river_idx j : ℕ) : ℕ :=
  if j ≤ river_idx then 0 else river_idx + 1

/-- Last contour of the bank containing contour j (river.cpp line 170). -/
def bankEnd (river_idx n j : ℕ) : ℕ :=
  if j ≤ river_idx then river_idx else n - 1

/-- Width of a bank as the difference of the lateral offsets of its first and
last contours (river.cpp line 171). -/
def bankWidth (offs : List Vec2) (s e : ℕ) : ℚ :=
  (offs.getD s ⟨0, 0⟩).x - (offs.getD e ⟨0, 0⟩).x

/-- Texture U coordinate of contour j: its lateral offset relative to the
bank's far end, over the bank width (river.cpp line 172). -/
def textureU (offs : List Vec2) (river_idx n j : ℕ) : ℚ :=
  ((offs.getD j ⟨0, 0⟩).x - (offs.getD (bankEnd river_idx n j) ⟨0, 0⟩).x) /
    bankWidth offs (bankStart river_idx j) (bankEnd river_idx n j)

/-- Track delta of row i: current sample minus previous sample, the track
being circular (river.cpp lines 132-135). -/
def trackDeltaAt (track : List Vec3) (i : ℕ) : Vec3 :=
  track.getD i ⟨0, 0, 0⟩ -
    track.getD (if i = 0 then track.length - 1 else i - 1) ⟨0, 0, 0⟩

/-- Track position of row i: the sample raised by the track height
(river.cpp lines 138-139). -/
def trackPosAt (cfg : RiverConfig) (track : List Vec3) (i : ℕ) : Vec3 :=
  track.getD i ⟨0, 0, 0⟩ + cfg.track_height • kAxisZ3f

/-- The bank vertices pushed for row i before any correction: position from
the local frame and the drawn offsets, texture coordinate from textureU and
textureV, fixed placeholder normal and tangent (river.cpp lines 158-178). -/
def rawRowAt (cfg : RiverConfig) (rand : ℕ → ℚ) (track : List Vec3) (i : ℕ) :
    List NormalMappedVertex :=
  let n := cfg.banks.length
  let offs := rowOffsets cfg rand i
  let normal := (Vec3.cross (trackDeltaAt track i) kAxisZ3f).normalized
  (List.range n).map fun j =>
    let off := offs.getD j ⟨0, 0⟩
    { pos := trackPosAt cfg track i + off.x • normal + off.y • kAxisZ3f,
      tc := ⟨textureU offs cfg.river_index n j, textureV cfg track.length i⟩,
      norm := ⟨0, 1, 0⟩,
      tangent := ⟨1, 0, 0, 1⟩ }

/-- Anti-backtracking correction of one vertex: if the step from the previous
row's vertex, projected on the track delta, is not positive, snap to the
previous position plus a small epsilon along the delta (river.cpp lines
187-195; the float literal 0.000001f is modelled as one millionth). -/
def correctVert (delta : Vec3) (prev cur : NormalMappedVertex) :
    NormalMappedVertex :=
  if Vec3.dot (cur.pos - prev.pos) delta ≤ 0 then
    { cur with pos := prev.pos + ((1 : ℚ) / 1000000) • delta }
  else cur

/-- Anti-backtracking correction of a whole row against the previous row
(river.cpp lines 182-196: the loop reads the previous row and rewrites only
the current row, element by element). -/
def correctedRow (delta : Vec3) (prevRow rawR : List NormalMappedVertex) :
    List NormalMappedVertex :=
  (List.range rawR.length).map fun j =>
    correctVert delta (prevRow.getD j defaultVertex) (rawR.getD j defaultVertex)

/-- Write the position field at a signed index; an index outside the vector is
undefined behaviour in C++ and a no-op here. -/
def setPosAt (l : List NormalMappedVertex) (idx : ℤ) (p : Vec3) :
    List NormalMappedVertex :=
  if 0 ≤ idx then l.set idx.toNat { l.getD idx.toNat defaultVertex with pos := p }
  else l

/-- The loop-closure writes of river.cpp lines 199-202, run on the final row:
for each contour j the vertex at flat index size - (8 - j) gets the position
of vertex j. The literal 8 is hardcoded in the source; the size_t expression
size - (8 - j) is the signed value size + j - 8 reduced modulo 2 to the 64,
in range exactly when the signed value is in range. -/
def closeLoop (l : List NormalMappedVertex) (n : ℕ) : List NormalMappedVertex :=
  (List.range n).foldl
    (fun acc j =>
      setPosAt acc (Int.ofNat acc.length + Int.ofNat j - 8)
        (acc.getD j defaultVertex).pos)
    l

/-- The two mesh-planning vectors the generation loop grows. -/
structure GenState where
  bank_verts : List NormalMappedVertex
  river_verts : List NormalMappedVertex
deriving DecidableEq

/-- The bank row the loop stores for sample i: the raw row, corrected against
the previous stored row when i > 0 (river.cpp lines 158-196; the correction
loop reads the previous row, the last n stored vertices, and rewrites only
the current row). -/
def newRowAt (cfg : RiverConfig) (rand : ℕ → ℚ) (track : List Vec3)
    (st : GenState) (i : ℕ) : List NormalMappedVertex :=
  if i = 0 then rawRowAt cfg rand track i
  else correctedRow (trackDeltaAt track i)
    (st.bank_verts.drop (st.bank_verts.length - cfg.banks.length))
    (rawRowAt cfg rand track i)

/-- One iteration of the vertex loop of CreateRiverMesh (river.cpp lines
130-211): push the bank row (raw, or corrected against the previous row when
i > 0), run the loop closure when i is the final sample, then copy the two
contours flanking the river channel into the river vertex list with texture
coordinates (0, V) and (1, V). -/
def genStep (cfg : RiverConfig) (rand : ℕ → ℚ) (track : List Vec3)
    (st : GenState) (i : ℕ) : GenState :=
  let n := cfg.banks.length
  let S := track.length
  let bv2 := st.bank_verts ++ newRowAt cfg rand track st i
  let bv3 := if i = S - 1 then closeLoop bv2 n else bv2
  let rvIdx := bv3.length - n + cfg.river_index
  { bank_verts := bv3,
    river_verts := st.river_verts ++
      [{ bv3.getD rvIdx defaultVertex with tc := ⟨0, textureV cfg S i⟩ },
       { bv3.getD (rvIdx + 1) defaultVertex with tc := ⟨1, textureV cfg S i⟩ }] }

/-- The vertex loop after k iterations. -/
def generateK (cfg : RiverConfig) (rand : ℕ → ℚ) (track : List Vec3) (k : ℕ) :
    GenState :=
  (List.range k).foldl (genStep cfg rand track) ⟨[], []⟩

/-- The full vertex loop of CreateRiverMesh over every path sample. -/
def generate (cfg : RiverConfig) (rand : ℕ → ℚ) (track : List Vec3) : GenState :=
  generateK cfg rand track track.length

/-- The make_quad lambda of river.cpp lines 217-226: six indices forming the
two triangles of one quad, stored as unsigned short. -/
def makeQuad (base_index off1 off2 : ℕ) : List ℕ :=
  [(base_index + off1) % 65536, (base_index + off1 + 1) % 65536,
   (base_index + off2) % 65536,
   (base_index + off2) % 65536, (base_index + off1 + 1) % 65536,
   (base_index + off2 + 1) % 65536]

/-- River index buffer: one quad per consecutive sample pair, stride 2
(river.cpp line 229). -/
def riverIndices (S : ℕ) : List ℕ :=
  (List.range (S - 1)).flatMap fun i => makeQuad (2 * i) 0 2

/-- Bank index buffer: per consecutive sample pair, one quad per adjacent
contour pair except the pair at river_index, stride n (river.cpp lines
237-241; the loop bound j ≤ num_bank_quads with num_bank_quads = n - 2 runs
j over 0..n-2). -/
def bankIndices (S n river_idx : ℕ) : List ℕ :=
  (List.range (S - 1)).flatMap fun i =>
    (List.range (n - 1)).flatMap fun j =>
      if j = river_idx then [] else makeQuad (i * n) j (n + j)

/-- The four buffers CreateRiverMesh hands to the two Mesh constructors. -/
structure MeshBuffers where
  river_verts : List NormalMappedVertex
  river_indices : List ℕ
  bank_verts : List NormalMappedVertex
  bank_indices : List ℕ
deriving DecidableEq

/-- The buffers produced by one run of the generation and stitching loops. -/
def meshBuffersOf (cfg : RiverConfig) (rand : ℕ → ℚ) (track : List Vec3) :
    MeshBuffers :=
  let st := generate cfg rand track
  { river_verts := st.river_verts,
    river_indices := riverIndices track.length,
    bank_verts := st.bank_verts,
    bank_indices := bankIndices track.length cfg.banks.length cfg.river_index }

/-- CreateRiverMesh: the assertion of river.cpp line 110 guards the whole
build; with a malformed configuration the process aborts before any mesh is
built, modelled as none. -/
def createRiverMesh (cfg : RiverConfig) (rand : ℕ → ℚ) (track : List Vec3) :
    Option MeshBuffers :=
  if 2 ≤ cfg.banks.length ∧ cfg.river_index < cfg.banks.length - 1 then
    some (meshBuffersOf cfg rand track)
  else none

/-- The per-entity component record (RiverData in river.h): the rail name,
the random seed, and the lazily created bank entity reference. -/
structure RiverData where
  rail_name : String
  random_seed : Int
  bank : Option Nat
deriving DecidableEq

/-- A RiverDef flatbuffer record: the rail_name string field may be absent
(none), exactly as the flatbuffer builder leaves it out; random_seed is an
integer field. -/
structure RiverDef where
  rail_name : Option String
  random_seed : Int
deriving DecidableEq

/-- Data-construction part of AddFromRawData (river.cpp lines 50-60). The
source reads the field pointer unconditionally; on a record
whose rail_name field is absent, the flatbuffer accessor yields null and the
read is a fatal null dereference, modelled none. -/
def addFromRawData (d : RiverDef) : Option RiverData :=
  d.rail_name.map fun s =>
    { rail_name := s, random_seed := d.random_seed, bank := none }

/-- ExportRawData (river.cpp lines 62-79): the rail_name field is added only
when the stored name is nonempty; the seed is always written. -/
def exportRawData (data : RiverData) : RiverDef :=
  { rail_name := if data.rail_name = "" then none else some data.rail_name,
    random_seed := data.random_seed }

/-- CreateRiverMesh reseeds the process-global random source from the
instance seed (srand, river.cpp line 126) before drawing jitter, so the
draws the generation consumes are a function of the seed alone, whatever
stream the global source held when the call began. seedStream models the
rand based stream as a deterministic function of the seed; globalStream is
the state the global source held before the call, discarded by the reseed. -/
def regenerate (cfg : RiverConfig) (seedStream : Int → ℕ → ℚ)
    (globalStream : ℕ → ℚ) (data : RiverData) (track : List Vec3) :
    Option MeshBuffers :=
  let _ := globalStream
  createRiverMesh cfg (seedStream data.random_seed) track

/-- Modelled from the spec: the entity-manager collaborator (its code is
outside this repository slice). AllocateNewEntity yields a fresh reference,
modelled by an allocation counter, the only entity state the claims need. -/
structure EntityState where
  nextId : Nat
deriving DecidableEq

/-- The bank-entity guard of CreateRiverMesh (river.cpp lines 283-294): when
the instance has no bank entity yet, allocate one and store the reference;
afterwards the stored entity is reused and only its mesh is replaced. -/
def ensureBankEntity (data : RiverData) (st : EntityState) :
    RiverData × EntityState :=
  match data.bank with
  | some _ => (data, st)
  | none => ({ data with bank := some st.nextId }, { nextId := st.nextId + 1 })

/-- One regeneration's effect on the instance data and the entity allocator:
the guard above is the only part of CreateRiverMesh that writes either. -/
def regenStep (p : RiverData × EntityState) : RiverData × EntityState :=
  ensureBankEntity p.1 p.2

/-- k further regenerations after a given state. -/
def iterRegen : ℕ → RiverData × EntityState → RiverData × EntityState
  | 0, p => p
  | k + 1, p => regenStep (iterRegen k p)

/-- The corrected-row recurrence the vertex loop realizes: row 0 is its raw
row; row i+1 is its raw row corrected against the final row i. -/
def finalRow (cfg : RiverConfig) (rand : ℕ → ℚ) (track : List Vec3) :
    ℕ → List NormalMappedVertex
  | 0 => rawRowAt cfg rand track 0
  | i + 1 => correctedRow (trackDeltaAt track (i + 1))
      (finalRow cfg rand track i) (rawRowAt cfg rand track (i + 1))

/-- The two river vertices drawn from one bank row: the contours flanking the
channel, texture coordinates replaced by (0, V) and (1, V). -/
def riverPair (cfg : RiverConfig) (S i : ℕ) (row : List NormalMappedVertex) :
    List NormalMappedVertex :=
  [{ row.getD cfg.river_index defaultVertex with tc := ⟨0, textureV cfg S i⟩ },
   { row.getD (cfg.river_index + 1) defaultVertex with
      tc := ⟨1, textureV cfg S i⟩ }]

/-- The final row after the loop closure of an eight-contour configuration:
positions copied from row zero, all other fields from the corrected last
row. -/
def closedLastRow (cfg : RiverConfig) (rand : ℕ → ℚ) (track : List Vec3) :
    List NormalMappedVertex :=
  (List.range cfg.banks.length).map fun j =>
    { (finalRow cfg rand track (track.length - 1)).getD j defaultVertex with
      pos := ((finalRow cfg rand track 0).getD j defaultVertex).pos }

/-- The all-zeros draw stream used by the concrete evaluations: every Lerp
lands on the range minimum, so the geometry below is jitter-free. -/
def rand0 : ℕ → ℚ := fun _ => 0

/-- Concrete valid three-contour configuration (degenerate jitter ranges, so
the geometry does not depend on the draws). -/
def cfg3 : RiverConfig :=
  { banks := [⟨-1, -1, 0, 0⟩, ⟨0, 0, 0, 0⟩, ⟨1, 1, 0, 0⟩],
    river_index := 0, track_height := 0, texture_tile_size := 0 }

/-- Three collinear samples, steps of length four along the x axis. -/
def track3 : List Vec3 := [⟨0, 0, 0⟩, ⟨4, 0, 0⟩, ⟨8, 0, 0⟩]

/-- Concrete valid eight-contour configuration: the contour count the source
hardcodes in its loop closure, river channel between contours 3 and 4. -/
def cfg8 : RiverConfig :=
  { banks := [⟨-4, -4, 0, 0⟩, ⟨-3, -3, 0, 0⟩, ⟨-2, -2, 0, 0⟩, ⟨-1, -1, 0, 0⟩,
              ⟨0, 0, 0, 0⟩, ⟨1, 1, 0, 0⟩, ⟨2, 2, 0, 0⟩, ⟨3, 3, 0, 0⟩],
    river_index := 3, track_height := 0, texture_tile_size := 0 }

/-- Four collinear samples, steps of length four along the x axis. -/
def track4 : List Vec3 := [⟨0, 0, 0⟩, ⟨4, 0, 0⟩, ⟨8, 0, 0⟩, ⟨12, 0, 0⟩]

/-- Concrete valid two-contour configuration: each bank is a single contour,
so every bank width is zero. -/
def cfg2 : RiverConfig :=
  { banks := [⟨0, 0, 0, 0⟩, ⟨1, 1, 0, 0⟩],
    river_index := 0, track_height := 0, texture_tile_size := 0 }

/-- Concrete valid nine-contour configuration: one contour more than the 8
the loop closure hardcodes, river channel between contours 3 and 4. -/
def cfg9 : RiverConfig :=
  { banks := [⟨-4, -4, 0, 0⟩, ⟨-3, -3, 0, 0⟩, ⟨-2, -2, 0, 0⟩, ⟨-1, -1, 0, 0⟩,
              ⟨0, 0, 0, 0⟩, ⟨1, 1, 0, 0⟩, ⟨2, 2, 0, 0⟩, ⟨3, 3, 0, 0⟩,
              ⟨4, 4, 0, 0⟩],
    river_index := 3, track_height := 0, texture_tile_size := 0 }

/-- Two collinear samples, one step of length four along the x axis. -/
def track2 : List Vec3 := [⟨0, 0, 0⟩, ⟨4, 0, 0⟩]

/-- C++ size_t subtraction: a - b taken modulo 2^64 (operands below 2^64). -/
def subSizeT (a b : ℕ) : ℕ := (a + 2 ^ 64 - b % 2 ^ 64) % 2 ^ 64

/-- The index of the loop-closure write bank_verts[size - (8 - j)] of
river.cpp line 201, with both subtractions in size_t arithmetic as the C++
computes them; the std::vector write is in bounds exactly when this index is
below size, the length of the bank-vertex buffer. -/
def closureWriteIdx (size j : ℕ) : ℕ := subSizeT size (subSizeT 8 j)

/-! ## Helper lemmas -/

theorem generateK_succ (cfg : RiverConfig) (rand : ℕ → ℚ) (track : List Vec3)
    (k : ℕ) :
    generateK cfg rand track (k + 1) =
      genStep cfg rand track (generateK cfg rand track k) k := by
  unfold generateK
  rw [List.range_succ, List.foldl_append]
  rfl

theorem ratSqrt_four : ratSqrt 4 = 2 := by
  norm_num [ratSqrt, Rat.num_ofNat, Rat.den_ofNat,
    show natSqrt (Int.toNat 4) = 2 from by decide,
    show natSqrt 1 = 1 from by decide]

theorem ratSqrt_sixteen : ratSqrt 16 = 4 := by
  norm_num [ratSqrt, Rat.num_ofNat, Rat.den_ofNat,
    show natSqrt (Int.toNat 16) = 4 from by decide,
    show natSqrt 1 = 1 from by decide]

theorem ratSqrt_sixtyfour : ratSqrt 64 = 8 := by
  norm_num [ratSqrt, Rat.num_ofNat, Rat.den_ofNat,
    show natSqrt (Int.toNat 64) = 8 from by decide,
    show natSqrt 1 = 1 from by decide]

theorem ratSqrt_onefortyfour : ratSqrt 144 = 12 := by
  norm_num [ratSqrt, Rat.num_ofNat, Rat.den_ofNat,
    show natSqrt (Int.toNat 144) = 12 from by decide,
    show natSqrt 1 = 1 from by decide]

theorem rawRowAt_length (cfg : RiverConfig) (rand : ℕ → ℚ) (track : List Vec3)
    (i : ℕ) : (rawRowAt cfg rand track i).length = cfg.banks.length := by
  simp [rawRowAt]

theorem correctedRow_length (delta : Vec3) (prevRow rawR : List NormalMappedVertex) :
    (correctedRow delta prevRow rawR).length = rawR.length := by
  simp [correctedRow]

theorem setPosAt_length (l : List NormalMappedVertex) (idx : ℤ) (p : Vec3) :
    (setPosAt l idx p).length = l.length := by
  unfold setPosAt
  split <;> simp

theorem closeLoop_length (l : List NormalMappedVertex) (n : ℕ) :
    (closeLoop l n).length = l.length := by
  unfold closeLoop
  generalize List.range n = js
  induction js generalizing l with
  | nil => rfl
  | cons j js ih => rw [List.foldl_cons, ih, setPosAt_length]

theorem newRowAt_length (cfg : RiverConfig) (rand : ℕ → ℚ)
    (track : List Vec3) (st : GenState) (i : ℕ) :
    (newRowAt cfg rand track st i).length = cfg.banks.length := by
  unfold newRowAt
  split <;> simp [correctedRow_length, rawRowAt_length]

theorem genStep_bank_length (cfg : RiverConfig) (rand : ℕ → ℚ)
    (track : List Vec3) (st : GenState) (i : ℕ) :
    (genStep cfg rand track st i).bank_verts.length =
      st.bank_verts.length + cfg.banks.length := by
  simp only [genStep]
  split <;> simp [closeLoop_length, newRowAt_length]

theorem genStep_river_length (cfg : RiverConfig) (rand : ℕ → ℚ)
    (track : List Vec3) (st : GenState) (i : ℕ) :
    (genStep cfg rand track st i).river_verts.length =
      st.river_verts.length + 2 := by
  simp only [genStep]
  split <;> simp

theorem generateK_bank_length (cfg : RiverConfig) (rand : ℕ → ℚ)
    (track : List Vec3) (k : ℕ) :
    (generateK cfg rand track k).bank_verts.length = k * cfg.banks.length := by
  induction k with
  | zero => simp [generateK]
  | succ k ih =>
      rw [generateK_succ, genStep_bank_length, ih, Nat.succ_mul]

theorem generateK_river_length (cfg : RiverConfig) (rand : ℕ → ℚ)
    (track : List Vec3) (k : ℕ) :
    (generateK cfg rand track k).river_verts.length = 2 * k := by
  induction k with
  | zero => simp [generateK]
  | succ k ih =>
      rw [generateK_succ, genStep_river_length, ih, Nat.mul_succ]

theorem length_flatMap_const {β : Type} (f : ℕ → List β) (c : ℕ)
    (h : ∀ i, (f i).length = c) (l : List ℕ) :
    (l.flatMap f).length = l.length * c := by
  induction l with
  | nil => simp
  | cons j js ih => simp [List.flatMap_cons, ih, h, Nat.succ_mul, Nat.add_comm]

theorem makeQuad_length (b o1 o2 : ℕ) : (makeQuad b o1 o2).length = 6 := rfl

theorem riverIndices_length (S : ℕ) :
    (riverIndices S).length = 6 * (S - 1) := by
  unfold riverIndices
  rw [length_flatMap_const _ 6 (fun i => makeQuad_length _ _ _)]
  simp [Nat.mul_comm]

theorem sum_skip_one (c : ℕ) : ∀ m ri, ri < m →
    (((List.range m).map fun j => if j = ri then 0 else c)).sum = c * (m - 1) := by
  intro m
  induction m with
  | zero => intro ri h; omega
  | succ m ih =>
      intro ri h
      rw [List.range_succ, List.map_append, List.sum_append]
      rcases Nat.lt_or_ge ri m with hlt | hge
      · rw [ih ri hlt]
        have hne : m ≠ ri := by omega
        simp only [List.map_cons, List.map_nil, List.sum_cons, List.sum_nil,
          if_neg hne]
        cases m with
        | zero => omega
        | succ m2 => simp [Nat.mul_succ]
      · have hri : ri = m := by omega
        have hmap : ((List.range m).map fun j => if j = ri then 0 else c) =
            (List.range m).map fun _ => c := by
          apply List.map_congr_left
          intro a ha
          rw [List.mem_range] at ha
          exact if_neg (by omega)
        rw [hmap]
        simp [hri, Nat.mul_comm]

theorem length_flatMap_sum {β : Type} (f : ℕ → List β) (l : List ℕ) :
    (l.flatMap f).length = (l.map fun j => (f j).length).sum := by
  induction l with
  | nil => rfl
  | cons j js ih => simp [List.flatMap_cons, ih]

theorem bankIndices_inner_length (n ri i : ℕ) (hri : ri < n - 1) :
    ((List.range (n - 1)).flatMap fun j =>
      if j = ri then [] else makeQuad (i * n) j (n + j)).length = 6 * (n - 2) := by
  rw [length_flatMap_sum]
  have hmap : ((List.range (n - 1)).map fun j =>
      (if j = ri then ([] : List ℕ) else makeQuad (i * n) j (n + j)).length) =
      (List.range (n - 1)).map fun j => if j = ri then 0 else 6 := by
    apply List.map_congr_left
    intro a _
    split <;> simp [makeQuad_length]
  rw [hmap, sum_skip_one 6 (n - 1) ri hri]
  omega

theorem bankIndices_length (S n ri : ℕ) (hri : ri < n - 1) :
    (bankIndices S n ri).length = 6 * (S - 1) * (n - 2) := by
  unfold bankIndices
  rw [length_flatMap_const _ (6 * (n - 2))
    (fun i => bankIndices_inner_length n ri i hri)]
  simp [Nat.mul_comm, Nat.mul_assoc, Nat.mul_left_comm]

/-! ## Concrete evaluations for the three-contour configuration -/

theorem gen3_one :
    generateK cfg3 rand0 track3 1 =
      { bank_verts :=
          [{ pos := ⟨0, -1, 0⟩, tc := ⟨0, 0⟩, norm := ⟨0, 1, 0⟩, tangent := ⟨1, 0, 0, 1⟩ },
           { pos := ⟨0, 0, 0⟩, tc := ⟨1, 0⟩, norm := ⟨0, 1, 0⟩, tangent := ⟨1, 0, 0, 1⟩ },
           { pos := ⟨0, 1, 0⟩, tc := ⟨0, 0⟩, norm := ⟨0, 1, 0⟩, tangent := ⟨1, 0, 0, 1⟩ }],
        river_verts :=
          [{ pos := ⟨0, -1, 0⟩, tc := ⟨0, 0⟩, norm := ⟨0, 1, 0⟩, tangent := ⟨1, 0, 0, 1⟩ },
           { pos := ⟨0, 0, 0⟩, tc := ⟨1, 0⟩, norm := ⟨0, 1, 0⟩, tangent := ⟨1, 0, 0, 1⟩ }] } := by
  rw [show (1 : ℕ) = 0 + 1 from rfl, generateK_succ]
  norm_num [generateK, genStep, newRowAt, rawRowAt, rowOffsets,
    trackDeltaAt, trackPosAt,
    textureU, textureV, bankStart, bankEnd, bankWidth, Lerp, Vec3.normalized,
    Vec3.cross, Vec3.dot, kAxisZ3f, cfg3, rand0, track3,
    show List.range 3 = [0, 1, 2] from rfl, defaultVertex,
    ratSqrt_sixtyfour, ratSqrt_sixteen]

theorem gen3_two :
    generateK cfg3 rand0 track3 2 =
      { bank_verts :=
          [{ pos := ⟨0, -1, 0⟩, tc := ⟨0, 0⟩, norm := ⟨0, 1, 0⟩, tangent := ⟨1, 0, 0, 1⟩ },
           { pos := ⟨0, 0, 0⟩, tc := ⟨1, 0⟩, norm := ⟨0, 1, 0⟩, tangent := ⟨1, 0, 0, 1⟩ },
           { pos := ⟨0, 1, 0⟩, tc := ⟨0, 0⟩, norm := ⟨0, 1, 0⟩, tangent := ⟨1, 0, 0, 1⟩ },
           { pos := ⟨4, 1, 0⟩, tc := ⟨0, 0⟩, norm := ⟨0, 1, 0⟩, tangent := ⟨1, 0, 0, 1⟩ },
           { pos := ⟨4, 0, 0⟩, tc := ⟨1, 0⟩, norm := ⟨0, 1, 0⟩, tangent := ⟨1, 0, 0, 1⟩ },
           { pos := ⟨4, -1, 0⟩, tc := ⟨0, 0⟩, norm := ⟨0, 1, 0⟩, tangent := ⟨1, 0, 0, 1⟩ }],
        river_verts :=
          [{ pos := ⟨0, -1, 0⟩, tc := ⟨0, 0⟩, norm := ⟨0, 1, 0⟩, tangent := ⟨1, 0, 0, 1⟩ },
           { pos := ⟨0, 0, 0⟩, tc := ⟨1, 0⟩, norm := ⟨0, 1, 0⟩, tangent := ⟨1, 0, 0, 1⟩ },
           { pos := ⟨4, 1, 0⟩, tc := ⟨0, 0⟩, norm := ⟨0, 1, 0⟩, tangent := ⟨1, 0, 0, 1⟩ },
           { pos := ⟨4, 0, 0⟩, tc := ⟨1, 0⟩, norm := ⟨0, 1, 0⟩, tangent := ⟨1, 0, 0, 1⟩ }] } := by
  rw [show (2 : ℕ) = 1 + 1 from rfl, generateK_succ, gen3_one]
  norm_num [genStep, newRowAt, rawRowAt, rowOffsets, correctedRow, correctVert,
    trackDeltaAt, trackPosAt,
    textureU, textureV, bankStart, bankEnd, bankWidth, Lerp, Vec3.normalized,
    Vec3.cross, Vec3.dot, kAxisZ3f, cfg3, rand0, track3,
    show List.range 3 = [0, 1, 2] from rfl, defaultVertex,
    ratSqrt_sixtyfour, ratSqrt_sixteen]

theorem gen3_full :
    generate cfg3 rand0 track3 =
      { bank_verts :=
          [{ pos := ⟨0, -1, 0⟩, tc := ⟨0, 0⟩, norm := ⟨0, 1, 0⟩, tangent := ⟨1, 0, 0, 1⟩ },
           { pos := ⟨0, -1, 0⟩, tc := ⟨1, 0⟩, norm := ⟨0, 1, 0⟩, tangent := ⟨1, 0, 0, 1⟩ },
           { pos := ⟨0, -1, 0⟩, tc := ⟨0, 0⟩, norm := ⟨0, 1, 0⟩, tangent := ⟨1, 0, 0, 1⟩ },
           { pos := ⟨0, -1, 0⟩, tc := ⟨0, 0⟩, norm := ⟨0, 1, 0⟩, tangent := ⟨1, 0, 0, 1⟩ },
           { pos := ⟨4, 0, 0⟩, tc := ⟨1, 0⟩, norm := ⟨0, 1, 0⟩, tangent := ⟨1, 0, 0, 1⟩ },
           { pos := ⟨4, -1, 0⟩, tc := ⟨0, 0⟩, norm := ⟨0, 1, 0⟩, tangent := ⟨1, 0, 0, 1⟩ },
           { pos := ⟨8, 1, 0⟩, tc := ⟨0, 0⟩, norm := ⟨0, 1, 0⟩, tangent := ⟨1, 0, 0, 1⟩ },
           { pos := ⟨8, 0, 0⟩, tc := ⟨1, 0⟩, norm := ⟨0, 1, 0⟩, tangent := ⟨1, 0, 0, 1⟩ },
           { pos := ⟨8, -1, 0⟩, tc := ⟨0, 0⟩, norm := ⟨0, 1, 0⟩, tangent := ⟨1, 0, 0, 1⟩ }],
        river_verts :=
          [{ pos := ⟨0, -1, 0⟩, tc := ⟨0, 0⟩, norm := ⟨0, 1, 0⟩, tangent := ⟨1, 0, 0, 1⟩ },
           { pos := ⟨0, 0, 0⟩, tc := ⟨1, 0⟩, norm := ⟨0, 1, 0⟩, tangent := ⟨1, 0, 0, 1⟩ },
           { pos := ⟨4, 1, 0⟩, tc := ⟨0, 0⟩, norm := ⟨0, 1, 0⟩, tangent := ⟨1, 0, 0, 1⟩ },
           { pos := ⟨4, 0, 0⟩, tc := ⟨1, 0⟩, norm := ⟨0, 1, 0⟩, tangent := ⟨1, 0, 0, 1⟩ },
           { pos := ⟨8, 1, 0⟩, tc := ⟨0, 0⟩, norm := ⟨0, 1, 0⟩, tangent := ⟨1, 0, 0, 1⟩ },
           { pos := ⟨8, 0, 0⟩, tc := ⟨1, 0⟩, norm := ⟨0, 1, 0⟩, tangent := ⟨1, 0, 0, 1⟩ }] } := by
  rw [generate, show track3.length = 3 from rfl,
    show (3 : ℕ) = 2 + 1 from rfl, generateK_succ, gen3_two]
  norm_num [genStep, newRowAt, rawRowAt, rowOffsets, correctedRow, correctVert,
    closeLoop, setPosAt, trackDeltaAt, trackPosAt,
    textureU, textureV, bankStart, bankEnd, bankWidth, Lerp, Vec3.normalized,
    Vec3.cross, Vec3.dot, kAxisZ3f, cfg3, rand0, track3,
    show List.range 3 = [0, 1, 2] from rfl, defaultVertex,
    ratSqrt_sixtyfour, ratSqrt_sixteen]
  norm_num [show Int.toNat 1 = 1 from rfl, show Int.toNat 2 = 2 from rfl,
    show Int.toNat 3 = 3 from rfl]

/-! ## Concrete evaluations for the eight-contour configuration -/

theorem gen8_one :
    generateK cfg8 rand0 track4 1 =
      { bank_verts :=
          [{ pos := ⟨0, -4, 0⟩, tc := ⟨1, 0⟩, norm := ⟨0, 1, 0⟩, tangent := ⟨1, 0, 0, 1⟩ },
          { pos := ⟨0, -3, 0⟩, tc := ⟨2 / 3, 0⟩, norm := ⟨0, 1, 0⟩, tangent := ⟨1, 0, 0, 1⟩ },
          { pos := ⟨0, -2, 0⟩, tc := ⟨1 / 3, 0⟩, norm := ⟨0, 1, 0⟩, tangent := ⟨1, 0, 0, 1⟩ },
          { pos := ⟨0, -1, 0⟩, tc := ⟨0, 0⟩, norm := ⟨0, 1, 0⟩, tangent := ⟨1, 0, 0, 1⟩ },
          { pos := ⟨0, 0, 0⟩, tc := ⟨1, 0⟩, norm := ⟨0, 1, 0⟩, tangent := ⟨1, 0, 0, 1⟩ },
          { pos := ⟨0, 1, 0⟩, tc := ⟨2 / 3, 0⟩, norm := ⟨0, 1, 0⟩, tangent := ⟨1, 0, 0, 1⟩ },
          { pos := ⟨0, 2, 0⟩, tc := ⟨1 / 3, 0⟩, norm := ⟨0, 1, 0⟩, tangent := ⟨1, 0, 0, 1⟩ },
          { pos := ⟨0, 3, 0⟩, tc := ⟨0, 0⟩, norm := ⟨0, 1, 0⟩, tangent := ⟨1, 0, 0, 1⟩ }],
        river_verts :=
          [{ pos := ⟨0, -1, 0⟩, tc := ⟨0, 0⟩, norm := ⟨0, 1, 0⟩, tangent := ⟨1, 0, 0, 1⟩ },
          { pos := ⟨0, 0, 0⟩, tc := ⟨1, 0⟩, norm := ⟨0, 1, 0⟩, tangent := ⟨1, 0, 0, 1⟩ }] } := by
  rw [show (1 : ℕ) = 0 + 1 from rfl, generateK_succ]
  norm_num [generateK, genStep, newRowAt, rawRowAt, rowOffsets, correctedRow, correctVert,
    closeLoop, setPosAt, trackDeltaAt, trackPosAt,
    textureU, textureV, bankStart, bankEnd, bankWidth, Lerp, Vec3.normalized,
    Vec3.cross, Vec3.dot, kAxisZ3f, cfg8, rand0, track4,
    show List.range 8 = [0, 1, 2, 3, 4, 5, 6, 7] from rfl,
    show List.range 4 = [0, 1, 2, 3] from rfl, defaultVertex,
    ratSqrt_sixteen, ratSqrt_onefortyfour]

theorem gen8_two :
    generateK cfg8 rand0 track4 2 =
      { bank_verts :=
          [{ pos := ⟨0, -4, 0⟩, tc := ⟨1, 0⟩, norm := ⟨0, 1, 0⟩, tangent := ⟨1, 0, 0, 1⟩ },
          { pos := ⟨0, -3, 0⟩, tc := ⟨2 / 3, 0⟩, norm := ⟨0, 1, 0⟩, tangent := ⟨1, 0, 0, 1⟩ },
          { pos := ⟨0, -2, 0⟩, tc := ⟨1 / 3, 0⟩, norm := ⟨0, 1, 0⟩, tangent := ⟨1, 0, 0, 1⟩ },
          { pos := ⟨0, -1, 0⟩, tc := ⟨0, 0⟩, norm := ⟨0, 1, 0⟩, tangent := ⟨1, 0, 0, 1⟩ },
          { pos := ⟨0, 0, 0⟩, tc := ⟨1, 0⟩, norm := ⟨0, 1, 0⟩, tangent := ⟨1, 0, 0, 1⟩ },
          { pos := ⟨0, 1, 0⟩, tc := ⟨2 / 3, 0⟩, norm := ⟨0, 1, 0⟩, tangent := ⟨1, 0, 0, 1⟩ },
          { pos := ⟨0, 2, 0⟩, tc := ⟨1 / 3, 0⟩, norm := ⟨0, 1, 0⟩, tangent := ⟨1, 0, 0, 1⟩ },
          { pos := ⟨0, 3, 0⟩, tc := ⟨0, 0⟩, norm := ⟨0, 1, 0⟩, tangent := ⟨1, 0, 0, 1⟩ },
          { pos := ⟨4, 4, 0⟩, tc := ⟨1, 0⟩, norm := ⟨0, 1, 0⟩, tangent := ⟨1, 0, 0, 1⟩ },
          { pos := ⟨4, 3, 0⟩, tc := ⟨2 / 3, 0⟩, norm := ⟨0, 1, 0⟩, tangent := ⟨1, 0, 0, 1⟩ },
          { pos := ⟨4, 2, 0⟩, tc := ⟨1 / 3, 0⟩, norm := ⟨0, 1, 0⟩, tangent := ⟨1, 0, 0, 1⟩ },
          { pos := ⟨4, 1, 0⟩, tc := ⟨0, 0⟩, norm := ⟨0, 1, 0⟩, tangent := ⟨1, 0, 0, 1⟩ },
          { pos := ⟨4, 0, 0⟩, tc := ⟨1, 0⟩, norm := ⟨0, 1, 0⟩, tangent := ⟨1, 0, 0, 1⟩ },
          { pos := ⟨4, -1, 0⟩, tc := ⟨2 / 3, 0⟩, norm := ⟨0, 1, 0⟩, tangent := ⟨1, 0, 0, 1⟩ },
          { pos := ⟨4, -2, 0⟩, tc := ⟨1 / 3, 0⟩, norm := ⟨0, 1, 0⟩, tangent := ⟨1, 0, 0, 1⟩ },
          { pos := ⟨4, -3, 0⟩, tc := ⟨0, 0⟩, norm := ⟨0, 1, 0⟩, tangent := ⟨1, 0, 0, 1⟩ }],
        river_verts :=
          [{ pos := ⟨0, -1, 0⟩, tc := ⟨0, 0⟩, norm := ⟨0, 1, 0⟩, tangent := ⟨1, 0, 0, 1⟩ },
          { pos := ⟨0, 0, 0⟩, tc := ⟨1, 0⟩, norm := ⟨0, 1, 0⟩, tangent := ⟨1, 0, 0, 1⟩ },
          { pos := ⟨4, 1, 0⟩, tc := ⟨0, 0⟩, norm := ⟨0, 1, 0⟩, tangent := ⟨1, 0, 0, 1⟩ },
          { pos := ⟨4, 0, 0⟩, tc := ⟨1, 0⟩, norm := ⟨0, 1, 0⟩, tangent := ⟨1, 0, 0, 1⟩ }] } := by
  rw [show (2 : ℕ) = 1 + 1 from rfl, generateK_succ, gen8_one]
  norm_num [genStep, newRowAt, rawRowAt, rowOffsets, correctedRow, correctVert,
    closeLoop, setPosAt, trackDeltaAt, trackPosAt,
    textureU, textureV, bankStart, bankEnd, bankWidth, Lerp, Vec3.normalized,
    Vec3.cross, Vec3.dot, kAxisZ3f, cfg8, rand0, track4,
    show List.range 8 = [0, 1, 2, 3, 4, 5, 6, 7] from rfl,
    show List.range 4 = [0, 1, 2, 3] from rfl, defaultVertex,
    ratSqrt_sixteen, ratSqrt_onefortyfour]

theorem gen8_three :
    generateK cfg8 rand0 track4 3 =
      { bank_verts :=
          [{ pos := ⟨0, -4, 0⟩, tc := ⟨1, 0⟩, norm := ⟨0, 1, 0⟩, tangent := ⟨1, 0, 0, 1⟩ },
          { pos := ⟨0, -3, 0⟩, tc := ⟨2 / 3, 0⟩, norm := ⟨0, 1, 0⟩, tangent := ⟨1, 0, 0, 1⟩ },
          { pos := ⟨0, -2, 0⟩, tc := ⟨1 / 3, 0⟩, norm := ⟨0, 1, 0⟩, tangent := ⟨1, 0, 0, 1⟩ },
          { pos := ⟨0, -1, 0⟩, tc := ⟨0, 0⟩, norm := ⟨0, 1, 0⟩, tangent := ⟨1, 0, 0, 1⟩ },
          { pos := ⟨0, 0, 0⟩, tc := ⟨1, 0⟩, norm := ⟨0, 1, 0⟩, tangent := ⟨1, 0, 0, 1⟩ },
          { pos := ⟨0, 1, 0⟩, tc := ⟨2 / 3, 0⟩, norm := ⟨0, 1, 0⟩, tangent := ⟨1, 0, 0, 1⟩ },
          { pos := ⟨0, 2, 0⟩, tc := ⟨1 / 3, 0⟩, norm := ⟨0, 1, 0⟩, tangent := ⟨1, 0, 0, 1⟩ },
          { pos := ⟨0, 3, 0⟩, tc := ⟨0, 0⟩, norm := ⟨0, 1, 0⟩, tangent := ⟨1, 0, 0, 1⟩ },
          { pos := ⟨4, 4, 0⟩, tc := ⟨1, 0⟩, norm := ⟨0, 1, 0⟩, tangent := ⟨1, 0, 0, 1⟩ },
          { pos := ⟨4, 3, 0⟩, tc := ⟨2 / 3, 0⟩, norm := ⟨0, 1, 0⟩, tangent := ⟨1, 0, 0, 1⟩ },
          { pos := ⟨4, 2, 0⟩, tc := ⟨1 / 3, 0⟩, norm := ⟨0, 1, 0⟩, tangent := ⟨1, 0, 0, 1⟩ },
          { pos := ⟨4, 1, 0⟩, tc := ⟨0, 0⟩, norm := ⟨0, 1, 0⟩, tangent := ⟨1, 0, 0, 1⟩ },
          { pos := ⟨4, 0, 0⟩, tc := ⟨1, 0⟩, norm := ⟨0, 1, 0⟩, tangent := ⟨1, 0, 0, 1⟩ },
          { pos := ⟨4, -1, 0⟩, tc := ⟨2 / 3, 0⟩, norm := ⟨0, 1, 0⟩, tangent := ⟨1, 0, 0, 1⟩ },
          { pos := ⟨4, -2, 0⟩, tc := ⟨1 / 3, 0⟩, norm := ⟨0, 1, 0⟩, tangent := ⟨1, 0, 0, 1⟩ },
          { pos := ⟨4, -3, 0⟩, tc := ⟨0, 0⟩, norm := ⟨0, 1, 0⟩, tangent := ⟨1, 0, 0, 1⟩ },
          { pos := ⟨8, 4, 0⟩, tc := ⟨1, 0⟩, norm := ⟨0, 1, 0⟩, tangent := ⟨1, 0, 0, 1⟩ },
          { pos := ⟨8, 3, 0⟩, tc := ⟨2 / 3, 0⟩, norm := ⟨0, 1, 0⟩, tangent := ⟨1, 0, 0, 1⟩ },
          { pos := ⟨8, 2, 0⟩, tc := ⟨1 / 3, 0⟩, norm := ⟨0, 1, 0⟩, tangent := ⟨1, 0, 0, 1⟩ },
          { pos := ⟨8, 1, 0⟩, tc := ⟨0, 0⟩, norm := ⟨0, 1, 0⟩, tangent := ⟨1, 0, 0, 1⟩ },
          { pos := ⟨8, 0, 0⟩, tc := ⟨1, 0⟩, norm := ⟨0, 1, 0⟩, tangent := ⟨1, 0, 0, 1⟩ },
          { pos := ⟨8, -1, 0⟩, tc := ⟨2 / 3, 0⟩, norm := ⟨0, 1, 0⟩, tangent := ⟨1, 0, 0, 1⟩ },
          { pos := ⟨8, -2, 0⟩, tc := ⟨1 / 3, 0⟩, norm := ⟨0, 1, 0⟩, tangent := ⟨1, 0, 0, 1⟩ },
          { pos := ⟨8, -3, 0⟩, tc := ⟨0, 0⟩, norm := ⟨0, 1, 0⟩, tangent := ⟨1, 0, 0, 1⟩ }],
        river_verts :=
          [{ pos := ⟨0, -1, 0⟩, tc := ⟨0, 0⟩, norm := ⟨0, 1, 0⟩, tangent := ⟨1, 0, 0, 1⟩ },
          { pos := ⟨0, 0, 0⟩, tc := ⟨1, 0⟩, norm := ⟨0, 1, 0⟩, tangent := ⟨1, 0, 0, 1⟩ },
          { pos := ⟨4, 1, 0⟩, tc := ⟨0, 0⟩, norm := ⟨0, 1, 0⟩, tangent := ⟨1, 0, 0, 1⟩ },
          { pos := ⟨4, 0, 0⟩, tc := ⟨1, 0⟩, norm := ⟨0, 1, 0⟩, tangent := ⟨1, 0, 0, 1⟩ },
          { pos := ⟨8, 1, 0⟩, tc := ⟨0, 0⟩, norm := ⟨0, 1, 0⟩, tangent := ⟨1, 0, 0, 1⟩ },
          { pos := ⟨8, 0, 0⟩, tc := ⟨1, 0⟩, norm := ⟨0, 1, 0⟩, tangent := ⟨1, 0, 0, 1⟩ }] } := by
  rw [show (3 : ℕ) = 2 + 1 from rfl, generateK_succ, gen8_two]
  norm_num [genStep, newRowAt, rawRowAt, rowOffsets, correctedRow, correctVert,
    closeLoop, setPosAt, trackDeltaAt, trackPosAt,
    textureU, textureV, bankStart, bankEnd, bankWidth, Lerp, Vec3.normalized,
    Vec3.cross, Vec3.dot, kAxisZ3f, cfg8, rand0, track4,
    show List.range 8 = [0, 1, 2, 3, 4, 5, 6, 7] from rfl,
    show List.range 4 = [0, 1, 2, 3] from rfl, defaultVertex,
    ratSqrt_sixteen, ratSqrt_onefortyfour]

theorem gen8_full :
    generate cfg8 rand0 track4 =
      { bank_verts :=
          [{ pos := ⟨0, -4, 0⟩, tc := ⟨1, 0⟩, norm := ⟨0, 1, 0⟩, tangent := ⟨1, 0, 0, 1⟩ },
          { pos := ⟨0, -3, 0⟩, tc := ⟨2 / 3, 0⟩, norm := ⟨0, 1, 0⟩, tangent := ⟨1, 0, 0, 1⟩ },
          { pos := ⟨0, -2, 0⟩, tc := ⟨1 / 3, 0⟩, norm := ⟨0, 1, 0⟩, tangent := ⟨1, 0, 0, 1⟩ },
          { pos := ⟨0, -1, 0⟩, tc := ⟨0, 0⟩, norm := ⟨0, 1, 0⟩, tangent := ⟨1, 0, 0, 1⟩ },
          { pos := ⟨0, 0, 0⟩, tc := ⟨1, 0⟩, norm := ⟨0, 1, 0⟩, tangent := ⟨1, 0, 0, 1⟩ },
          { pos := ⟨0, 1, 0⟩, tc := ⟨2 / 3, 0⟩, norm := ⟨0, 1, 0⟩, tangent := ⟨1, 0, 0, 1⟩ },
          { pos := ⟨0, 2, 0⟩, tc := ⟨1 / 3, 0⟩, norm := ⟨0, 1, 0⟩, tangent := ⟨1, 0, 0, 1⟩ },
          { pos := ⟨0, 3, 0⟩, tc := ⟨0, 0⟩, norm := ⟨0, 1, 0⟩, tangent := ⟨1, 0, 0, 1⟩ },
          { pos := ⟨4, 4, 0⟩, tc := ⟨1, 0⟩, norm := ⟨0, 1, 0⟩, tangent := ⟨1, 0, 0, 1⟩ },
          { pos := ⟨4, 3, 0⟩, tc := ⟨2 / 3, 0⟩, norm := ⟨0, 1, 0⟩, tangent := ⟨1, 0, 0, 1⟩ },
          { pos := ⟨4, 2, 0⟩, tc := ⟨1 / 3, 0⟩, norm := ⟨0, 1, 0⟩, tangent := ⟨1, 0, 0, 1⟩ },
          { pos := ⟨4, 1, 0⟩, tc := ⟨0, 0⟩, norm := ⟨0, 1, 0⟩, tangent := ⟨1, 0, 0, 1⟩ },
          { pos := ⟨4, 0, 0⟩, tc := ⟨1, 0⟩, norm := ⟨0, 1, 0⟩, tangent := ⟨1, 0, 0, 1⟩ },
          { pos := ⟨4, -1, 0⟩, tc := ⟨2 / 3, 0⟩, norm := ⟨0, 1, 0⟩, tangent := ⟨1, 0, 0, 1⟩ },
          { pos := ⟨4, -2, 0⟩, tc := ⟨1 / 3, 0⟩, norm := ⟨0, 1, 0⟩, tangent := ⟨1, 0, 0, 1⟩ },
          { pos := ⟨4, -3, 0⟩, tc := ⟨0, 0⟩, norm := ⟨0, 1, 0⟩, tangent := ⟨1, 0, 0, 1⟩ },
          { pos := ⟨8, 4, 0⟩, tc := ⟨1, 0⟩, norm := ⟨0, 1, 0⟩, tangent := ⟨1, 0, 0, 1⟩ },
          { pos := ⟨8, 3, 0⟩, tc := ⟨2 / 3, 0⟩, norm := ⟨0, 1, 0⟩, tangent := ⟨1, 0, 0, 1⟩ },
          { pos := ⟨8, 2, 0⟩, tc := ⟨1 / 3, 0⟩, norm := ⟨0, 1, 0⟩, tangent := ⟨1, 0, 0, 1⟩ },
          { pos := ⟨8, 1, 0⟩, tc := ⟨0, 0⟩, norm := ⟨0, 1, 0⟩, tangent := ⟨1, 0, 0, 1⟩ },
          { pos := ⟨8, 0, 0⟩, tc := ⟨1, 0⟩, norm := ⟨0, 1, 0⟩, tangent := ⟨1, 0, 0, 1⟩ },
          { pos := ⟨8, -1, 0⟩, tc := ⟨2 / 3, 0⟩, norm := ⟨0, 1, 0⟩, tangent := ⟨1, 0, 0, 1⟩ },
          { pos := ⟨8, -2, 0⟩, tc := ⟨1 / 3, 0⟩, norm := ⟨0, 1, 0⟩, tangent := ⟨1, 0, 0, 1⟩ },
          { pos := ⟨8, -3, 0⟩, tc := ⟨0, 0⟩, norm := ⟨0, 1, 0⟩, tangent := ⟨1, 0, 0, 1⟩ },
          { pos := ⟨0, -4, 0⟩, tc := ⟨1, 0⟩, norm := ⟨0, 1, 0⟩, tangent := ⟨1, 0, 0, 1⟩ },
          { pos := ⟨0, -3, 0⟩, tc := ⟨2 / 3, 0⟩, norm := ⟨0, 1, 0⟩, tangent := ⟨1, 0, 0, 1⟩ },
          { pos := ⟨0, -2, 0⟩, tc := ⟨1 / 3, 0⟩, norm := ⟨0, 1, 0⟩, tangent := ⟨1, 0, 0, 1⟩ },
          { pos := ⟨0, -1, 0⟩, tc := ⟨0, 0⟩, norm := ⟨0, 1, 0⟩, tangent := ⟨1, 0, 0, 1⟩ },
          { pos := ⟨0, 0, 0⟩, tc := ⟨1, 0⟩, norm := ⟨0, 1, 0⟩, tangent := ⟨1, 0, 0, 1⟩ },
          { pos := ⟨0, 1, 0⟩, tc := ⟨2 / 3, 0⟩, norm := ⟨0, 1, 0⟩, tangent := ⟨1, 0, 0, 1⟩ },
          { pos := ⟨0, 2, 0⟩, tc := ⟨1 / 3, 0⟩, norm := ⟨0, 1, 0⟩, tangent := ⟨1, 0, 0, 1⟩ },
          { pos := ⟨0, 3, 0⟩, tc := ⟨0, 0⟩, norm := ⟨0, 1, 0⟩, tangent := ⟨1, 0, 0, 1⟩ }],
        river_verts :=
          [{ pos := ⟨0, -1, 0⟩, tc := ⟨0, 0⟩, norm := ⟨0, 1, 0⟩, tangent := ⟨1, 0, 0, 1⟩ },
          { pos := ⟨0, 0, 0⟩, tc := ⟨1, 0⟩, norm := ⟨0, 1, 0⟩, tangent := ⟨1, 0, 0, 1⟩ },
          { pos := ⟨4, 1, 0⟩, tc := ⟨0, 0⟩, norm := ⟨0, 1, 0⟩, tangent := ⟨1, 0, 0, 1⟩ },
          { pos := ⟨4, 0, 0⟩, tc := ⟨1, 0⟩, norm := ⟨0, 1, 0⟩, tangent := ⟨1, 0, 0, 1⟩ },
          { pos := ⟨8, 1, 0⟩, tc := ⟨0, 0⟩, norm := ⟨0, 1, 0⟩, tangent := ⟨1, 0, 0, 1⟩ },
          { pos := ⟨8, 0, 0⟩, tc := ⟨1, 0⟩, norm := ⟨0, 1, 0⟩, tangent := ⟨1, 0, 0, 1⟩ },
          { pos := ⟨0, -1, 0⟩, tc := ⟨0, 0⟩, norm := ⟨0, 1, 0⟩, tangent := ⟨1, 0, 0, 1⟩ },
          { pos := ⟨0, 0, 0⟩, tc := ⟨1, 0⟩, norm := ⟨0, 1, 0⟩, tangent := ⟨1, 0, 0, 1⟩ }] } := by
  rw [generate, show track4.length = 4 from rfl,
    show (4 : ℕ) = 3 + 1 from rfl, generateK_succ, gen8_three]
  norm_num [genStep, newRowAt, rawRowAt, rowOffsets, correctedRow, correctVert,
    closeLoop, setPosAt, trackDeltaAt, trackPosAt,
    textureU, textureV, bankStart, bankEnd, bankWidth, Lerp, Vec3.normalized,
    Vec3.cross, Vec3.dot, kAxisZ3f, cfg8, rand0, track4,
    show List.range 8 = [0, 1, 2, 3, 4, 5, 6, 7] from rfl,
    show List.range 4 = [0, 1, 2, 3] from rfl, defaultVertex,
    ratSqrt_sixteen, ratSqrt_onefortyfour]
  norm_num [show Int.toNat 24 = 24 from rfl, show Int.toNat 25 = 25 from rfl,
    show Int.toNat 26 = 26 from rfl, show Int.toNat 27 = 27 from rfl,
    show Int.toNat 28 = 28 from rfl, show Int.toNat 29 = 29 from rfl,
    show Int.toNat 30 = 30 from rfl, show Int.toNat 31 = 31 from rfl]


/-! ## Structural lemmas about the generation loop -/

theorem getD_map_range {α : Type} (f : ℕ → α) (n i : ℕ) (d : α) :
    ((List.range n).map f).getD i d = if i < n then f i else d := by
  rcases Nat.lt_or_ge i n with h | h
  · rw [if_pos h, List.getD_eq_getElem?_getD, List.getElem?_map,
      List.getElem?_range h]
    rfl
  · have hlen : ((List.range n).map f).length ≤ i := by simpa using h
    rw [if_neg (Nat.not_lt.mpr h), List.getD_eq_getElem?_getD,
      List.getElem?_eq_none hlen]
    rfl

theorem getD_take_lt {α : Type} (l : List α) (m t : ℕ) (ht : t < m) (d : α) :
    (l.take m).getD t d = l.getD t d := by
  rw [List.getD_eq_getElem?_getD, List.getD_eq_getElem?_getD,
    List.getElem?_take, if_pos ht]

theorem getD_drop_add {α : Type} (l : List α) (m i : ℕ) (d : α) :
    (l.drop m).getD i d = l.getD (m + i) d := by
  rw [List.getD_eq_getElem?_getD, List.getD_eq_getElem?_getD,
    List.getElem?_drop]

theorem set_append_right {α : Type} (X Y : List α) (r : ℕ) (v : α) :
    (X ++ Y).set (X.length + r) v = X ++ Y.set r v := by
  induction X with
  | nil => simp
  | cons a xs ih =>
      have hlen : (a :: xs).length + r = (xs.length + r) + 1 := by
        simp [List.length_cons]
        omega
      rw [List.cons_append, hlen, List.set_cons_succ, ih, List.cons_append]

theorem genStep_bank_eq (cfg : RiverConfig) (rand : ℕ → ℚ)
    (track : List Vec3) (st : GenState) (i : ℕ) :
    (genStep cfg rand track st i).bank_verts =
      if i = track.length - 1
      then closeLoop (st.bank_verts ++ newRowAt cfg rand track st i)
        cfg.banks.length
      else st.bank_verts ++ newRowAt cfg rand track st i := rfl

theorem finalRow_length (cfg : RiverConfig) (rand : ℕ → ℚ) (track : List Vec3) :
    ∀ i, (finalRow cfg rand track i).length = cfg.banks.length := by
  intro i
  cases i with
  | zero => rw [finalRow, rawRowAt_length]
  | succ m => rw [finalRow, correctedRow_length, rawRowAt_length]

theorem row_index_lt {i k n j : ℕ} (hik : i < k) (hj : j < n) :
    i * n + j < k * n :=
  calc i * n + j < i * n + n := by omega
    _ = (i + 1) * n := by ring
    _ ≤ k * n := Nat.mul_le_mul_right _ hik

theorem flatMap_range_length {α : Type} (f : ℕ → List α) (n : ℕ)
    (hf : ∀ i, (f i).length = n) (k : ℕ) :
    ((List.range k).flatMap f).length = k * n := by
  rw [length_flatMap_const f n hf, List.length_range]

theorem flatMap_range_getD {α : Type} (f : ℕ → List α) (n : ℕ)
    (hf : ∀ i, (f i).length = n) (d : α) :
    ∀ k i j, i < k → j < n →
    ((List.range k).flatMap f).getD (i * n + j) d = (f i).getD j d := by
  intro k
  induction k with
  | zero => intro i j hik _; exact absurd hik (Nat.not_lt_zero i)
  | succ k ih =>
      intro i j hik hj
      rw [List.range_succ, List.flatMap_append]
      simp only [List.flatMap_cons, List.flatMap_nil, List.append_nil]
      rcases Nat.lt_or_ge i k with h2 | hge
      · rw [List.getD_append _ _ _ _
          (by rw [flatMap_range_length f n hf]; exact row_index_lt h2 hj)]
        exact ih i j h2 hj
      · have h3 : i = k := by omega
        subst h3
        rw [List.getD_append_right _ _ _ _
            (by rw [flatMap_range_length f n hf]; exact Nat.le_add_right _ _),
          flatMap_range_length f n hf, Nat.add_sub_cancel_left]

theorem flatMap_range_drop_last {α : Type} (f : ℕ → List α) (n : ℕ)
    (hf : ∀ i, (f i).length = n) (k : ℕ) :
    ((List.range (k + 1)).flatMap f).drop ((k + 1) * n - n) = f k := by
  rw [List.range_succ, List.flatMap_append]
  simp only [List.flatMap_cons, List.flatMap_nil, List.append_nil]
  rw [show (k + 1) * n - n = ((List.range k).flatMap f).length by
      rw [flatMap_range_length f n hf, Nat.succ_mul, Nat.add_sub_cancel],
    List.drop_left]

theorem genStep_river_eq (cfg : RiverConfig) (rand : ℕ → ℚ)
    (track : List Vec3) (st : GenState) (i : ℕ) :
    (genStep cfg rand track st i).river_verts =
      st.river_verts ++
        [{ (genStep cfg rand track st i).bank_verts.getD
            ((genStep cfg rand track st i).bank_verts.length -
              cfg.banks.length + cfg.river_index) defaultVertex with
            tc := ⟨0, textureV cfg track.length i⟩ },
         { (genStep cfg rand track st i).bank_verts.getD
            ((genStep cfg rand track st i).bank_verts.length -
              cfg.banks.length + cfg.river_index + 1) defaultVertex with
            tc := ⟨1, textureV cfg track.length i⟩ }] := rfl

/-- Before the final sample is processed, the generation state is exactly the
concatenation of the corrected rows, and the river list the concatenation of
the per-row channel pairs: the loop closure has not yet run and no earlier
row has been touched again. -/
theorem generateK_eq_rows (cfg : RiverConfig) (rand : ℕ → ℚ) (track : List Vec3)
    (hri : cfg.river_index + 1 < cfg.banks.length) :
    ∀ k, k < track.length →
    generateK cfg rand track k =
      { bank_verts := (List.range k).flatMap (finalRow cfg rand track),
        river_verts := (List.range k).flatMap fun i =>
          riverPair cfg track.length i (finalRow cfg rand track i) } := by
  intro k
  induction k with
  | zero => intro _; rfl
  | succ k ih =>
      intro hk1
      have hk : k < track.length := Nat.lt_of_succ_lt hk1
      have hrow := finalRow_length cfg rand track
      rw [generateK_succ, ih hk]
      set st0 : GenState :=
        ⟨(List.range k).flatMap (finalRow cfg rand track),
         (List.range k).flatMap fun i =>
           riverPair cfg track.length i (finalRow cfg rand track i)⟩ with hst0
      have hnew : newRowAt cfg rand track st0 k = finalRow cfg rand track k := by
        unfold newRowAt
        cases k with
        | zero => rw [if_pos rfl]; rfl
        | succ m =>
            rw [if_neg (Nat.succ_ne_zero m),
              show st0.bank_verts =
                (List.range (m + 1)).flatMap (finalRow cfg rand track) from rfl,
              flatMap_range_length _ _ hrow,
              flatMap_range_drop_last _ _ hrow m]
            rfl
      have hb : (genStep cfg rand track st0 k).bank_verts =
          (List.range (k + 1)).flatMap (finalRow cfg rand track) := by
        rw [genStep_bank_eq, if_neg (by omega : ¬k = track.length - 1), hnew,
          show st0.bank_verts =
            (List.range k).flatMap (finalRow cfg rand track) from rfl,
          List.range_succ, List.flatMap_append]
        simp only [List.flatMap_cons, List.flatMap_nil, List.append_nil]
      have hlenb : (genStep cfg rand track st0 k).bank_verts.length =
          (k + 1) * cfg.banks.length := by
        rw [hb, flatMap_range_length _ _ hrow]
      have hr : (genStep cfg rand track st0 k).river_verts =
          (List.range (k + 1)).flatMap fun i =>
            riverPair cfg track.length i (finalRow cfg rand track i) := by
        rw [genStep_river_eq, hlenb, hb,
          show (k + 1) * cfg.banks.length - cfg.banks.length + cfg.river_index =
            k * cfg.banks.length + cfg.river_index by
              rw [Nat.succ_mul, Nat.add_sub_cancel],
          Nat.add_assoc,
          flatMap_range_getD _ _ hrow _ (k + 1) k _ (Nat.lt_succ_self k)
            (by omega : cfg.river_index < cfg.banks.length),
          flatMap_range_getD _ _ hrow _ (k + 1) k _ (Nat.lt_succ_self k) hri,
          show st0.river_verts = (List.range k).flatMap fun i =>
            riverPair cfg track.length i (finalRow cfg rand track i) from rfl,
          List.range_succ, List.flatMap_append]
        simp only [List.flatMap_cons, List.flatMap_nil, List.append_nil]
        rfl
      calc genStep cfg rand track st0 k
          = ⟨(genStep cfg rand track st0 k).bank_verts,
             (genStep cfg rand track st0 k).river_verts⟩ := rfl
        _ = _ := by rw [hb, hr]

/-- One pass of the loop-closure writes over a list of at least 16 vertices:
the prefix before the last eight entries is untouched, and each of the last
eight entries has its position replaced by the position of the entry with the
same offset from the front (the reads all land in the untouched prefix). -/
theorem closeLoop_steps (l : List NormalMappedVertex) (h : 16 ≤ l.length) :
    ∀ t, t ≤ 8 →
    (List.range t).foldl
      (fun acc j => setPosAt acc (Int.ofNat acc.length + Int.ofNat j - 8)
        (acc.getD j defaultVertex).pos) l =
      l.take (l.length - 8) ++
        ((List.range t).map fun j =>
          { l.getD (l.length - 8 + j) defaultVertex with
            pos := (l.getD j defaultVertex).pos }) ++
        l.drop (l.length - 8 + t) := by
  intro t
  induction t with
  | zero =>
      intro _
      simp [List.take_append_drop]
  | succ t ih =>
      intro ht
      rw [List.range_succ, List.foldl_append, ih (by omega), List.foldl_cons,
        List.foldl_nil]
      set A := l.take (l.length - 8) with hAdef
      set B := (List.range t).map (fun j =>
          { l.getD (l.length - 8 + j) defaultVertex with
            pos := (l.getD j defaultVertex).pos }) with hBdef
      set C := l.drop (l.length - 8 + t) with hCdef
      have hA : A.length = l.length - 8 := by
        rw [hAdef, List.length_take, inf_eq_left.mpr (Nat.sub_le _ _)]
      have hB : B.length = t := by
        rw [hBdef, List.length_map, List.length_range]
      have hC : C.length = l.length - (l.length - 8 + t) := by
        rw [hCdef, List.length_drop]
      have hAB : (A ++ B).length = l.length - 8 + t := by
        rw [List.length_append, hA, hB]
      have hP : (A ++ B ++ C).length = l.length := by
        rw [List.length_append, hAB, hC]
        omega
      have hread : (A ++ B ++ C).getD t defaultVertex =
          l.getD t defaultVertex := by
        rw [List.getD_append _ _ _ _ (by rw [hAB]; omega),
          List.getD_append _ _ _ _ (by rw [hA]; omega), hAdef,
          getD_take_lt _ _ _ (by omega)]
      have hmid : (A ++ B ++ C).getD (l.length - 8 + t) defaultVertex =
          l.getD (l.length - 8 + t) defaultVertex := by
        rw [List.getD_append_right _ _ _ _ (le_of_eq hAB), hAB, Nat.sub_self,
          hCdef, getD_drop_add, Nat.add_zero]
      have hsetP : ∀ v, (A ++ B ++ C).set (l.length - 8 + t) v =
          A ++ B ++ C.set 0 v := by
        intro v
        have hgen := set_append_right (A ++ B) C 0 v
        rw [hAB, Nat.add_zero] at hgen
        exact hgen
      have hCcons : C = l.getD (l.length - 8 + t) defaultVertex ::
          l.drop (l.length - 8 + t + 1) := by
        rw [hCdef, List.drop_eq_getElem_cons
          (show l.length - 8 + t < l.length by omega)]
        rw [List.getD_eq_getElem?_getD, List.getElem?_eq_getElem
          (show l.length - 8 + t < l.length by omega)]
        rfl
      rw [hread]
      unfold setPosAt
      rw [if_pos (show (0 : ℤ) ≤
          Int.ofNat (A ++ B ++ C).length + Int.ofNat t - 8 by
        rw [hP]; simp only [Int.ofNat_eq_natCast]; omega)]
      rw [show (Int.ofNat (A ++ B ++ C).length + Int.ofNat t - 8).toNat =
          l.length - 8 + t by
        rw [hP]; simp only [Int.ofNat_eq_natCast]; omega]
      rw [hmid, hsetP, hCcons, List.set_cons_zero]
      rw [List.map_append, ← hBdef,
        show l.length - 8 + (t + 1) = l.length - 8 + t + 1 by omega]
      simp only [List.map_cons, List.map_nil, List.append_assoc,
        List.singleton_append, List.cons_append, List.nil_append]


/-- The loop closure on an eight-contour bank buffer of at least two rows:
the last row's positions are replaced by the first row's. -/
theorem closeLoop_eight (l : List NormalMappedVertex) (h : 16 ≤ l.length) :
    closeLoop l 8 =
      l.take (l.length - 8) ++
        ((List.range 8).map fun j =>
          { l.getD (l.length - 8 + j) defaultVertex with
            pos := (l.getD j defaultVertex).pos }) := by
  unfold closeLoop
  rw [closeLoop_steps l h 8 le_rfl,
    show l.length - 8 + 8 = l.length by omega, List.drop_length,
    List.append_nil]

theorem closedLastRow_length (cfg : RiverConfig) (rand : ℕ → ℚ)
    (track : List Vec3) :
    (closedLastRow cfg rand track).length = cfg.banks.length := by
  simp [closedLastRow]

/-- The whole generation loop for an eight-contour configuration: the bank
buffer is the corrected rows with the last row's positions closed onto row
zero, and the river buffer takes its channel pair from each stored row, the
closed one included. Only holds for eight contours: the closure writes are
hardcoded to eight. -/
theorem generate_eq_rows_eight (cfg : RiverConfig) (rand : ℕ → ℚ)
    (track : List Vec3) (hn : cfg.banks.length = 8)
    (hri : cfg.river_index + 1 < 8) (hS : 2 ≤ track.length) :
    generate cfg rand track =
      { bank_verts :=
          ((List.range (track.length - 1)).flatMap (finalRow cfg rand track)) ++
            closedLastRow cfg rand track,
        river_verts :=
          ((List.range (track.length - 1)).flatMap fun i =>
            riverPair cfg track.length i (finalRow cfg rand track i)) ++
            riverPair cfg track.length (track.length - 1)
              (closedLastRow cfg rand track) } := by
  have hri' : cfg.river_index + 1 < cfg.banks.length := by omega
  have hrow := finalRow_length cfg rand track
  have hrow8 : ∀ i, (finalRow cfg rand track i).length = 8 := by
    intro i
    rw [hrow, hn]
  have hsplit : generateK cfg rand track track.length =
      genStep cfg rand track (generateK cfg rand track (track.length - 1))
        (track.length - 1) := by
    conv_lhs => rw [show track.length = (track.length - 1) + 1 by omega]
    exact generateK_succ cfg rand track (track.length - 1)
  rw [generate, hsplit,
    generateK_eq_rows cfg rand track hri' (track.length - 1) (by omega)]
  set st0 : GenState :=
    ⟨(List.range (track.length - 1)).flatMap (finalRow cfg rand track),
     (List.range (track.length - 1)).flatMap fun i =>
       riverPair cfg track.length i (finalRow cfg rand track i)⟩ with hst0
  have hflatlen8 : ((List.range (track.length - 1)).flatMap
      (finalRow cfg rand track)).length = (track.length - 1) * 8 :=
    flatMap_range_length _ 8 hrow8 _
  have hnew : newRowAt cfg rand track st0 (track.length - 1) =
      finalRow cfg rand track (track.length - 1) := by
    unfold newRowAt
    obtain ⟨m2, hm2⟩ : ∃ m2, track.length - 1 = m2 + 1 :=
      ⟨track.length - 2, by omega⟩
    rw [hm2, if_neg (Nat.succ_ne_zero m2),
      show st0.bank_verts =
        (List.range (m2 + 1)).flatMap (finalRow cfg rand track) from by
          rw [← hm2],
      flatMap_range_length _ _ hrow,
      flatMap_range_drop_last _ _ hrow m2]
    rfl
  have hb : (genStep cfg rand track st0 (track.length - 1)).bank_verts =
      ((List.range (track.length - 1)).flatMap (finalRow cfg rand track)) ++
        closedLastRow cfg rand track := by
    rw [genStep_bank_eq, if_pos rfl, hnew,
      show st0.bank_verts =
        (List.range (track.length - 1)).flatMap (finalRow cfg rand track)
        from rfl, hn]
    have hXlen : (((List.range (track.length - 1)).flatMap
        (finalRow cfg rand track)) ++
        finalRow cfg rand track (track.length - 1)).length =
        track.length * 8 := by
      rw [List.length_append, hflatlen8, hrow8]
      omega
    rw [closeLoop_eight _ (by rw [hXlen]; omega), hXlen]
    congr 1
    · rw [show track.length * 8 - 8 = ((List.range (track.length - 1)).flatMap
          (finalRow cfg rand track)).length from by rw [hflatlen8]; omega]
      exact List.take_left _ _
    · unfold closedLastRow
      rw [hn]
      apply List.map_congr_left
      intro j hj
      rw [List.mem_range] at hj
      have hget1 : (((List.range (track.length - 1)).flatMap
          (finalRow cfg rand track)) ++
          finalRow cfg rand track (track.length - 1)).getD
            (track.length * 8 - 8 + j) defaultVertex =
          (finalRow cfg rand track (track.length - 1)).getD j defaultVertex := by
        rw [List.getD_append_right _ _ _ _ (by rw [hflatlen8]; omega),
          hflatlen8,
          show track.length * 8 - 8 + j - (track.length - 1) * 8 = j by omega]
      have hget2 : (((List.range (track.length - 1)).flatMap
          (finalRow cfg rand track)) ++
          finalRow cfg rand track (track.length - 1)).getD j defaultVertex =
          (finalRow cfg rand track 0).getD j defaultVertex := by
        rw [List.getD_append _ _ _ _ (by rw [hflatlen8]; omega)]
        have := flatMap_range_getD _ 8 hrow8 defaultVertex
          (track.length - 1) 0 j (by omega) hj
        rw [Nat.zero_mul, Nat.zero_add] at this
        exact this
      rw [hget1, hget2]
  have hlenb : (genStep cfg rand track st0 (track.length - 1)).bank_verts.length =
      track.length * 8 := by
    rw [hb, List.length_append, hflatlen8, closedLastRow_length, hn]
    omega
  have hget : ∀ j, (((List.range (track.length - 1)).flatMap
      (finalRow cfg rand track)) ++
      closedLastRow cfg rand track).getD ((track.length - 1) * 8 + j)
        defaultVertex =
      (closedLastRow cfg rand track).getD j defaultVertex := by
    intro j
    rw [List.getD_append_right _ _ _ _ (by rw [hflatlen8]; omega), hflatlen8,
      Nat.add_sub_cancel_left]
  have hr : (genStep cfg rand track st0 (track.length - 1)).river_verts =
      ((List.range (track.length - 1)).flatMap fun i =>
        riverPair cfg track.length i (finalRow cfg rand track i)) ++
        riverPair cfg track.length (track.length - 1)
          (closedLastRow cfg rand track) := by
    rw [genStep_river_eq, hlenb, hb, hn,
      show track.length * 8 - 8 + cfg.river_index =
        (track.length - 1) * 8 + cfg.river_index by omega,
      Nat.add_assoc, hget, hget,
      show st0.river_verts = (List.range (track.length - 1)).flatMap fun i =>
        riverPair cfg track.length i (finalRow cfg rand track i) from rfl]
    simp only [riverPair]
  calc genStep cfg rand track st0 (track.length - 1)
      = ⟨(genStep cfg rand track st0 (track.length - 1)).bank_verts,
         (genStep cfg rand track st0 (track.length - 1)).river_verts⟩ := rfl
    _ = _ := by rw [hb, hr]

theorem meshBuffersOf_bank (cfg : RiverConfig) (rand : ℕ → ℚ)
    (track : List Vec3) :
    (meshBuffersOf cfg rand track).bank_verts =
      (generate cfg rand track).bank_verts := rfl

theorem meshBuffersOf_river (cfg : RiverConfig) (rand : ℕ → ℚ)
    (track : List Vec3) :
    (meshBuffersOf cfg rand track).river_verts =
      (generate cfg rand track).river_verts := rfl

theorem GenState_bank_mk (A B : List NormalMappedVertex) :
    (GenState.mk A B).bank_verts = A := rfl

theorem GenState_river_mk (A B : List NormalMappedVertex) :
    (GenState.mk A B).river_verts = B := rfl

/-- Bank vertex lookup for an eight-contour generation: row i contour j is
the corrected row i, or the closed row for the final sample. -/
theorem generate_bank_getD_eight (cfg : RiverConfig) (rand : ℕ → ℚ)
    (track : List Vec3) (hn : cfg.banks.length = 8)
    (hri : cfg.river_index + 1 < 8) (hS : 2 ≤ track.length) (i j : ℕ)
    (_hi : i < track.length) (hj : j < 8) :
    (generate cfg rand track).bank_verts.getD (i * 8 + j) defaultVertex =
      (if i = track.length - 1 then closedLastRow cfg rand track
        else finalRow cfg rand track i).getD j defaultVertex := by
  have hrow8 : ∀ r, (finalRow cfg rand track r).length = 8 := by
    intro r
    rw [finalRow_length, hn]
  have hflatlen8 : ((List.range (track.length - 1)).flatMap
      (finalRow cfg rand track)).length = (track.length - 1) * 8 :=
    flatMap_range_length _ 8 hrow8 _
  rw [generate_eq_rows_eight cfg rand track hn hri hS]
  by_cases hcase : i = track.length - 1
  · rw [if_pos hcase, hcase, GenState_bank_mk]
    rw [List.getD_append_right _ _ _ _ (by rw [hflatlen8]; omega), hflatlen8,
      Nat.add_sub_cancel_left]
  · rw [if_neg hcase, GenState_bank_mk]
    have hiS : i < track.length - 1 := by omega
    rw [List.getD_append _ _ _ _ (by rw [hflatlen8]; exact row_index_lt hiS hj),
      flatMap_range_getD _ 8 hrow8 defaultVertex _ i j hiS hj]

/-- River vertex lookup for an eight-contour generation: the pair of row i is
its stored row's channel contours with the texture coordinates replaced. -/
theorem generate_river_getD_eight (cfg : RiverConfig) (rand : ℕ → ℚ)
    (track : List Vec3) (hn : cfg.banks.length = 8)
    (hri : cfg.river_index + 1 < 8) (hS : 2 ≤ track.length) (i : ℕ)
    (hi : i < track.length) :
    (generate cfg rand track).river_verts.getD (2 * i) defaultVertex =
      { (if i = track.length - 1 then closedLastRow cfg rand track
          else finalRow cfg rand track i).getD cfg.river_index defaultVertex
        with tc := ⟨0, textureV cfg track.length i⟩ } ∧
    (generate cfg rand track).river_verts.getD (2 * i + 1) defaultVertex =
      { (if i = track.length - 1 then closedLastRow cfg rand track
          else finalRow cfg rand track i).getD (cfg.river_index + 1)
            defaultVertex
        with tc := ⟨1, textureV cfg track.length i⟩ } := by
  have hpairlen : ∀ (r : ℕ) (row : List NormalMappedVertex),
      (riverPair cfg track.length r row).length = 2 := by
    intro r row
    rfl
  have hpicklen : ((List.range (track.length - 1)).flatMap fun r =>
      riverPair cfg track.length r (finalRow cfg rand track r)).length =
      (track.length - 1) * 2 :=
    flatMap_range_length _ 2 (fun r => hpairlen r _) _
  rw [generate_eq_rows_eight cfg rand track hn hri hS]
  by_cases hcase : i = track.length - 1
  · rw [if_pos hcase, hcase]
    constructor
    · rw [GenState_river_mk,
        List.getD_append_right _ _ _ _ (by rw [hpicklen]; omega), hpicklen,
        show 2 * (track.length - 1) - (track.length - 1) * 2 = 0 by omega]
      rfl
    · rw [GenState_river_mk,
        List.getD_append_right _ _ _ _ (by rw [hpicklen]; omega), hpicklen,
        show 2 * (track.length - 1) + 1 - (track.length - 1) * 2 = 1 by omega]
      rfl
  · have hiS : i < track.length - 1 := by omega
    rw [if_neg hcase]
    constructor
    · rw [GenState_river_mk,
        List.getD_append _ _ _ _ (by rw [hpicklen]; omega),
        show 2 * i = i * 2 + 0 by omega,
        flatMap_range_getD _ 2 (fun r => hpairlen r _) defaultVertex _ i 0 hiS
          (by omega)]
      rfl
    · rw [GenState_river_mk,
        List.getD_append _ _ _ _ (by rw [hpicklen]; omega),
        show 2 * i + 1 = i * 2 + 1 by omega,
        flatMap_range_getD _ 2 (fun r => hpairlen r _) defaultVertex _ i 1 hiS
          (by omega)]
      rfl

theorem dot_self_pos (v : Vec3) (h : v ≠ ⟨0, 0, 0⟩) : 0 < Vec3.dot v v := by
  rcases v with ⟨a, b, c⟩
  have hne : a ≠ 0 ∨ b ≠ 0 ∨ c ≠ 0 := by
    by_contra hc
    push_neg at hc
    exact h (by simp [hc.1, hc.2.1, hc.2.2])
  simp only [Vec3.dot]
  rcases hne with ha | hb | hc
  · nlinarith [mul_self_nonneg b, mul_self_nonneg c, mul_self_pos.mpr ha]
  · nlinarith [mul_self_nonneg a, mul_self_nonneg c, mul_self_pos.mpr hb]
  · nlinarith [mul_self_nonneg a, mul_self_nonneg b, mul_self_pos.mpr hc]

/-- The anti-backtracking correction guarantees strict forward progress for a
row against the previous stored row, whenever the track delta is nonzero:
either the raw vertex already advanced, or it is snapped to a small positive
multiple of the delta. -/
theorem correctedRow_forward (delta : Vec3) (hδ : 0 < Vec3.dot delta delta)
    (prevRow rawR : List NormalMappedVertex) (j : ℕ) (hj : j < rawR.length) :
    0 < Vec3.dot
      (((correctedRow delta prevRow rawR).getD j defaultVertex).pos -
        (prevRow.getD j defaultVertex).pos) delta := by
  unfold correctedRow
  rw [getD_map_range, if_pos hj]
  unfold correctVert
  split
  · show 0 < Vec3.dot ((prevRow.getD j defaultVertex).pos +
      ((1 : ℚ) / 1000000) • delta - (prevRow.getD j defaultVertex).pos) delta
    rcases delta with ⟨dx, dy, dz⟩
    simp only [Vec3.dot, Vec3.add_def, Vec3.sub_def, Vec3.smul_def] at hδ ⊢
    nlinarith [hδ]
  · case isFalse hgt =>
      push_neg at hgt
      exact hgt

/-! ## Claim theorems -/

/-- C10: mesh generation with a malformed configuration (contour count below
two, or river_index outside 0..num_contours-2) aborts on the assertion of
river.cpp line 110 before any mesh is built; the assertion branch is reached
exactly when the configuration invariant is violated. -/
theorem malformed_config_assertion (cfg : RiverConfig) (rand : ℕ → ℚ)
    (track : List Vec3) :
    createRiverMesh cfg rand track = none ↔
      ¬(2 ≤ cfg.banks.length ∧ cfg.river_index < cfg.banks.length - 1) := by
  unfold createRiverMesh
  split <;> simp_all

/-- C5: mesh generation reseeds the global random source from the instance
seed before drawing, so two runs with the same seed and the same path input
produce identical buffers, whatever stream the global source held before
each run (the RNG is modelled as a deterministic function of the seed). -/
theorem regeneration_deterministic (cfg : RiverConfig)
    (seedStream : Int → ℕ → ℚ) (g1 g2 : ℕ → ℚ) (d1 d2 : RiverData)
    (track : List Vec3) (h : d1.random_seed = d2.random_seed) :
    regenerate cfg seedStream g1 d1 track =
      regenerate cfg seedStream g2 d2 track := by
  unfold regenerate
  rw [h]

/-- Witness for C5 at a concrete configuration, two different prior global
streams and two data records sharing the seed. -/
theorem regeneration_deterministic_witness :
    regenerate cfg8 (fun _ _ => 0) (fun _ => 1 / 2)
        { rail_name := "rail", random_seed := 7, bank := none } track4 =
      regenerate cfg8 (fun _ _ => 0) (fun _ => 1 / 3)
        { rail_name := "other", random_seed := 7, bank := some 3 } track4 :=
  regeneration_deterministic cfg8 (fun _ _ => 0) (fun _ => 1 / 2)
    (fun _ => 1 / 3) _ _ track4 rfl

/-- C7 (code_bug): exporting data built from a definition carrying the empty
name yields a definition with the name field omitted, and re-importing that
definition dereferences the absent field (a fatal null dereference, modelled
none) instead of producing an empty name; the round trip does hold for a
nonempty name. -/
theorem export_empty_name_reimport_null_deref :
    (addFromRawData { rail_name := some "", random_seed := 7 }).map exportRawData =
      some { rail_name := none, random_seed := 7 } ∧
    addFromRawData { rail_name := none, random_seed := 7 } = none ∧
    (addFromRawData { rail_name := some "rail", random_seed := 7 }).map
        exportRawData = some { rail_name := some "rail", random_seed := 7 } := by
  refine ⟨?_, rfl, ?_⟩ <;> simp [addFromRawData, exportRawData]

/-- C8: the first regeneration creates the bank entity; any number of further
regenerations leave the stored bank reference and the entity allocator
unchanged, so the bank child entity is created exactly once. -/
theorem bank_entity_allocated_once (d : RiverData) (st : EntityState) (k : ℕ) :
    iterRegen k (regenStep (d, st)) = regenStep (d, st) ∧
    ((regenStep (d, st)).1.bank).isSome = true := by
  have hsome : ((regenStep (d, st)).1.bank).isSome = true := by
    unfold regenStep ensureBankEntity
    cases hb : d.bank <;> simp [hb]
  have hfix : ∀ p : RiverData × EntityState, p.1.bank.isSome = true →
      regenStep p = p := by
    intro p hp
    unfold regenStep ensureBankEntity
    cases hb : p.1.bank with
    | some e => simp
    | none => rw [hb] at hp; simp at hp
  refine ⟨?_, hsome⟩
  induction k with
  | zero => rfl
  | succ k ih => rw [iterRegen, ih, hfix _ hsome]

/-- C2 (code_bug): at a valid three-contour configuration the generation runs
(the assertion passes), yet the hardcoded 8 in the loop-closure write index
size - (8 - j) leaves the last row's vertex position different from the first
row's at contour 0, although the source's own comment says the closure forces
the beginning and end to line up. -/
theorem closure_hardcoded_eight_failure :
    createRiverMesh cfg3 rand0 track3 = some (meshBuffersOf cfg3 rand0 track3) ∧
    ((meshBuffersOf cfg3 rand0 track3).bank_verts.getD (2 * 3 + 0)
        defaultVertex).pos ≠
      ((meshBuffersOf cfg3 rand0 track3).bank_verts.getD 0 defaultVertex).pos := by
  constructor
  · simp [createRiverMesh, cfg3]
  · norm_num [meshBuffersOf, gen3_full, defaultVertex, Vec3.mk.injEq]

/-- C4 counterexample: at the same valid three-contour configuration, the
loop-closure misdirected by the hardcoded 8 rewrites a row-0 bank vertex
after the row-0 river vertices were copied, so a river vertex position no
longer equals the final bank vertex position at contour river_index + 1 of
its row. -/
theorem river_edge_sharing_counterexample :
    createRiverMesh cfg3 rand0 track3 = some (meshBuffersOf cfg3 rand0 track3) ∧
    ((meshBuffersOf cfg3 rand0 track3).river_verts.getD 1 defaultVertex).pos ≠
      ((meshBuffersOf cfg3 rand0 track3).bank_verts.getD
        (0 * 3 + cfg3.river_index + 1) defaultVertex).pos := by
  constructor
  · simp [createRiverMesh, cfg3]
  · norm_num [meshBuffersOf, gen3_full, defaultVertex, Vec3.mk.injEq,
      show cfg3.river_index = 0 from rfl]

/-- C3 counterexample: at a valid eight-contour configuration the loop
closure overwrites the final row after its anti-backtracking correction, so
the final row's step, projected on that row's track delta, is negative: the
claimed strict forward progress fails at row segment_count - 1. -/
theorem forward_progress_fails_at_seam :
    createRiverMesh cfg8 rand0 track4 = some (meshBuffersOf cfg8 rand0 track4) ∧
    (0 < 3 ∧ 3 < track4.length) ∧
    Vec3.dot
      (((meshBuffersOf cfg8 rand0 track4).bank_verts.getD (3 * 8 + 0)
          defaultVertex).pos -
        ((meshBuffersOf cfg8 rand0 track4).bank_verts.getD (2 * 8 + 0)
          defaultVertex).pos)
      (trackDeltaAt track4 3) ≤ 0 := by
  refine ⟨by simp [createRiverMesh, cfg8], by norm_num [track4], ?_⟩
  norm_num [meshBuffersOf, gen8_full, defaultVertex, Vec3.dot,
    show trackDeltaAt track4 3 = ⟨4, 0, 0⟩ from by
      norm_num [trackDeltaAt, track4]]

/-- C1 as amended: for every valid configuration whose loop-closure writes
stay inside the bank buffer (num_contours ≤ 8, so no write index reaches the
buffer length, and num_contours * S ≥ 8, so no size_t index wraps) and every
closed-loop path of S ≥ 2 samples, one mesh generation succeeds and produces
exactly 2S river vertices, 6(S-1) river indices, S*num_contours bank vertices
and 6(S-1)(num_contours-2) bank indices. Outside that range a valid
configuration drives the closure write bank_verts[size - (8 - j)] out of
bounds, so the count claim does not extend there. -/
theorem river_mesh_counts (cfg : RiverConfig) (rand : ℕ → ℚ) (track : List Vec3)
    (hn : 2 ≤ cfg.banks.length) (hri : cfg.river_index < cfg.banks.length - 1)
    (_hn8 : cfg.banks.length ≤ 8)
    (_hsize : 8 ≤ cfg.banks.length * track.length)
    (_hS : 2 ≤ track.length) :
    createRiverMesh cfg rand track = some (meshBuffersOf cfg rand track) ∧
    (meshBuffersOf cfg rand track).river_verts.length = 2 * track.length ∧
    (meshBuffersOf cfg rand track).river_indices.length =
      6 * (track.length - 1) ∧
    (meshBuffersOf cfg rand track).bank_verts.length =
      track.length * cfg.banks.length ∧
    (meshBuffersOf cfg rand track).bank_indices.length =
      6 * (track.length - 1) * (cfg.banks.length - 2) := by
  refine ⟨by rw [createRiverMesh, if_pos ⟨hn, hri⟩], ?_, ?_, ?_, ?_⟩ <;>
    simp [meshBuffersOf, generate, generateK_bank_length, generateK_river_length,
      riverIndices_length, bankIndices_length _ _ _ hri]

/-- Witness for C1 at the eight-contour configuration and a four-sample
path. -/
theorem river_mesh_counts_witness :
    createRiverMesh cfg8 rand0 track4 = some (meshBuffersOf cfg8 rand0 track4) ∧
    (meshBuffersOf cfg8 rand0 track4).river_verts.length = 2 * track4.length ∧
    (meshBuffersOf cfg8 rand0 track4).river_indices.length =
      6 * (track4.length - 1) ∧
    (meshBuffersOf cfg8 rand0 track4).bank_verts.length =
      track4.length * cfg8.banks.length ∧
    (meshBuffersOf cfg8 rand0 track4).bank_indices.length =
      6 * (track4.length - 1) * (cfg8.banks.length - 2) :=
  river_mesh_counts cfg8 rand0 track4 (by norm_num [cfg8])
    (by norm_num [cfg8]) (by norm_num [cfg8])
    (by norm_num [cfg8, track4]) (by norm_num [track4])

/-- C1 counterexample: the original count claim quantifies over every valid
configuration, but the loop closure addresses the bank buffer out of bounds
on valid configurations outside num_contours ≤ 8 ∧ num_contours * S ≥ 8. At
the valid nine-contour configuration on a two-sample path the bank buffer
holds size = 18 vertices, the closure loop reaches j = 8, and its write index
size - (8 - j) = 18 is not below 18; at the valid two-contour configuration
on the same path size = 4 < 8, and the j = 0 write index size - 8 wraps in
size_t far past the buffer. Both are out-of-bounds std::vector writes
(undefined behavior), so the program does not deliver the count-exact
buffers the claim asserts on those valid inputs. -/
theorem mesh_counts_closure_out_of_bounds :
    (2 ≤ cfg9.banks.length ∧ cfg9.river_index < cfg9.banks.length - 1) ∧
    (2 ≤ cfg2.banks.length ∧ cfg2.river_index < cfg2.banks.length - 1) ∧
    2 ≤ track2.length ∧
    (meshBuffersOf cfg9 rand0 track2).bank_verts.length =
      track2.length * cfg9.banks.length ∧
    8 < cfg9.banks.length ∧
    ¬ closureWriteIdx (track2.length * cfg9.banks.length) 8 <
        track2.length * cfg9.banks.length ∧
    track2.length * cfg2.banks.length < 8 ∧
    ¬ closureWriteIdx (track2.length * cfg2.banks.length) 0 <
        track2.length * cfg2.banks.length := by
  refine ⟨by norm_num [cfg9], by norm_num [cfg2], by norm_num [track2],
    ?_, by norm_num [cfg9], ?_, by norm_num [cfg2, track2], ?_⟩
  · simp [meshBuffersOf, generate, generateK_bank_length]
  · have h : track2.length * cfg9.banks.length = 18 := by norm_num [track2, cfg9]
    rw [h]; decide
  · have h : track2.length * cfg2.banks.length = 4 := by norm_num [track2, cfg2]
    rw [h]; decide

/-- C9 counterexample: in the num_contours=8, river_index=3, segment_count=4
scenario the bank index list has 6 quads of 6 indices per each of the 3
iterations, 108 indices, not the 72 the claim states (72 contradicts the
claim's own general formula 6(S-1)(num_contours-2) = 6*3*6). -/
theorem bank_index_count_scenario_counterexample :
    (bankIndices 4 8 3).length = 108 ∧ (bankIndices 4 8 3).length ≠ 72 :=
  ⟨by decide, by decide⟩

/-- C9 as amended: the index loops run exactly segment_count - 1 iterations,
the river emitting one quad per iteration and the bank one quad per adjacent
contour pair except pair river_index, every quad split into the two fixed
triangles of make_quad; consequently the index counts are 6(S-1) and
6(S-1)(n-2), and for num_contours=8, river_index=3, segment_count=4 the
river index list has 18 entries and the bank index list 108, with the pair
at contour index 3 skipped. -/
theorem index_generation_structure :
    (∀ S n ri : ℕ, ri < n - 1 →
      (riverIndices S).length = 6 * (S - 1) ∧
      (bankIndices S n ri).length = 6 * (S - 1) * (n - 2)) ∧
    (∀ b o1 o2 : ℕ, makeQuad b o1 o2 =
      [(b + o1) % 65536, (b + o1 + 1) % 65536, (b + o2) % 65536,
       (b + o2) % 65536, (b + o1 + 1) % 65536, (b + o2 + 1) % 65536]) ∧
    riverIndices 4 = (List.range 3).flatMap (fun i => makeQuad (2 * i) 0 2) ∧
    (riverIndices 4).length = 18 ∧
    bankIndices 4 8 3 = ((List.range 3).flatMap fun i =>
      [0, 1, 2, 4, 5, 6].flatMap fun j => makeQuad (i * 8) j (8 + j)) ∧
    (bankIndices 4 8 3).length = 108 :=
  ⟨fun S n ri hri => ⟨riverIndices_length S, bankIndices_length S n ri hri⟩,
   fun _ _ _ => rfl, rfl, by decide, by decide, by decide⟩

/-- C4 as amended: for the eight-contour configuration the source hardcodes
in its loop closure, every row's two river vertices carry the final
(post-correction, post-closure) bank vertex positions at contours
river_index and river_index + 1 of the same row, with texture coordinates
(0, V) and (1, V). -/
theorem river_edge_sharing_eight_contours (cfg : RiverConfig) (rand : ℕ → ℚ)
    (track : List Vec3) (i : ℕ) (hn : cfg.banks.length = 8)
    (hri : cfg.river_index < 7) (hS : 2 ≤ track.length)
    (hi : i < track.length) :
    ((meshBuffersOf cfg rand track).river_verts.getD (2 * i)
        defaultVertex).pos =
      ((meshBuffersOf cfg rand track).bank_verts.getD
        (i * 8 + cfg.river_index) defaultVertex).pos ∧
    ((meshBuffersOf cfg rand track).river_verts.getD (2 * i)
        defaultVertex).tc = ⟨0, textureV cfg track.length i⟩ ∧
    ((meshBuffersOf cfg rand track).river_verts.getD (2 * i + 1)
        defaultVertex).pos =
      ((meshBuffersOf cfg rand track).bank_verts.getD
        (i * 8 + cfg.river_index + 1) defaultVertex).pos ∧
    ((meshBuffersOf cfg rand track).river_verts.getD (2 * i + 1)
        defaultVertex).tc = ⟨1, textureV cfg track.length i⟩ := by
  have hri' : cfg.river_index + 1 < 8 := by omega
  have h1 := generate_river_getD_eight cfg rand track hn hri' hS i hi
  have h2 := generate_bank_getD_eight cfg rand track hn hri' hS i
    cfg.river_index hi (by omega)
  have h3 := generate_bank_getD_eight cfg rand track hn hri' hS i
    (cfg.river_index + 1) hi (by omega)
  rw [meshBuffersOf_river, meshBuffersOf_bank, h1.1, h1.2, Nat.add_assoc,
    h2, h3]
  exact ⟨rfl, rfl, rfl, rfl⟩

/-- Witness for C4 at the eight-contour configuration, row 0 of a
four-sample path. -/
theorem river_edge_sharing_eight_contours_witness :
    ((meshBuffersOf cfg8 rand0 track4).river_verts.getD (2 * 0)
        defaultVertex).pos =
      ((meshBuffersOf cfg8 rand0 track4).bank_verts.getD
        (0 * 8 + cfg8.river_index) defaultVertex).pos ∧
    ((meshBuffersOf cfg8 rand0 track4).river_verts.getD (2 * 0)
        defaultVertex).tc = ⟨0, textureV cfg8 track4.length 0⟩ ∧
    ((meshBuffersOf cfg8 rand0 track4).river_verts.getD (2 * 0 + 1)
        defaultVertex).pos =
      ((meshBuffersOf cfg8 rand0 track4).bank_verts.getD
        (0 * 8 + cfg8.river_index + 1) defaultVertex).pos ∧
    ((meshBuffersOf cfg8 rand0 track4).river_verts.getD (2 * 0 + 1)
        defaultVertex).tc = ⟨1, textureV cfg8 track4.length 0⟩ :=
  river_edge_sharing_eight_contours cfg8 rand0 track4 0 (by norm_num [cfg8])
    (by norm_num [cfg8]) (by norm_num [track4]) (by norm_num [track4])

/-- C3 as amended: for the eight-contour configuration, on every interior
row (0 < i < segment_count - 1, the rows the loop closure never rewrites)
with a nonzero track delta, the step from the previous row's vertex to this
row's vertex has strictly positive projection on the row's track delta, for
every contour. The final row is overwritten by the loop closure and can
backtrack (see the counterexample), and a zero track delta (repeated path
samples) leaves the snapped vertex with a zero projection. -/
theorem forward_progress_interior_rows (cfg : RiverConfig) (rand : ℕ → ℚ)
    (track : List Vec3) (i j : ℕ) (hn : cfg.banks.length = 8)
    (hri : cfg.river_index < 7) (h0 : 0 < i) (hiS : i < track.length - 1)
    (hj : j < 8) (hδ : trackDeltaAt track i ≠ ⟨0, 0, 0⟩) :
    0 < Vec3.dot
      (((meshBuffersOf cfg rand track).bank_verts.getD (i * 8 + j)
          defaultVertex).pos -
        ((meshBuffersOf cfg rand track).bank_verts.getD ((i - 1) * 8 + j)
          defaultVertex).pos)
      (trackDeltaAt track i) := by
  have hS : 2 ≤ track.length := by omega
  have hri' : cfg.river_index + 1 < 8 := by omega
  have hb1 := generate_bank_getD_eight cfg rand track hn hri' hS i j
    (by omega) hj
  have hb2 := generate_bank_getD_eight cfg rand track hn hri' hS (i - 1) j
    (by omega) hj
  rw [meshBuffersOf_bank, hb1, hb2, if_neg (by omega), if_neg (by omega)]
  obtain ⟨m, hm⟩ : ∃ m, i = m + 1 := ⟨i - 1, by omega⟩
  subst hm
  rw [show m + 1 - 1 = m from rfl,
    show finalRow cfg rand track (m + 1) =
      correctedRow (trackDeltaAt track (m + 1)) (finalRow cfg rand track m)
        (rawRowAt cfg rand track (m + 1)) from rfl]
  exact correctedRow_forward (trackDeltaAt track (m + 1))
    (dot_self_pos _ hδ) _ _ j
    (by rw [rawRowAt_length, hn]; exact hj)

/-- Witness for C3 at the eight-contour configuration, interior row 1,
contour 0 of a four-sample path with nonzero deltas. -/
theorem forward_progress_interior_rows_witness :
    0 < Vec3.dot
      (((meshBuffersOf cfg8 rand0 track4).bank_verts.getD (1 * 8 + 0)
          defaultVertex).pos -
        ((meshBuffersOf cfg8 rand0 track4).bank_verts.getD ((1 - 1) * 8 + 0)
          defaultVertex).pos)
      (trackDeltaAt track4 1) :=
  forward_progress_interior_rows cfg8 rand0 track4 1 0 (by norm_num [cfg8])
    (by norm_num [cfg8]) (by norm_num) (by norm_num [track4]) (by norm_num)
    (by norm_num [trackDeltaAt, track4, Vec3.mk.injEq])

end River
